import Mathlib

/-!
Verification of the zmk-layout library: a shallow embedding of the layout
model, layer manager, validation pipeline, keymap builder and JSON
round-trip code, with theorems settling the specification claims.

Source files embedded:
  * `src/src/zmk_layout/core/managers/layer_manager.py` (LayerManager)
  * `src/src/zmk_layout/validation/pipeline.py` (ValidationPipeline)
  * `src/zmk_layout/generators/keymap_generator.py` (KeymapBuilder)
  * `src/zmk_layout/utils/json_operations.py` (parse/serialize layout data)
Parts of the repository absent from the source tree (the pydantic models in
`zmk_layout/models/`, `LayerProxy`, the devicetree tokenizer/parser) are
modelled from the specification; each such definition carries a
`Modelled from the spec:` doc comment.
-/

/-- A parameter value is a string or an integer
(`ParamValue` in `zmk_layout/models/types.py`, re-exported by
`models/__init__.py`; the sum type follows spec section 3.3). -/
inductive ParamValue where
  | int (n : Int)
  | str (s : String)
deriving Repr, DecidableEq

/-- Modelled from the spec: `LayoutParam` (section 3.3) — a recursive
parameter tree `{ value: string-or-int, params: seq of LayoutParam }`;
the pydantic class in `zmk_layout/models/core.py` is absent from src. -/
inductive LayoutParam where
  | mk (value : ParamValue) (params : List LayoutParam)
deriving Repr

/-- The parameter value of a `LayoutParam`. -/
def LayoutParam.value : LayoutParam → ParamValue
  | .mk v _ => v

/-- The nested parameters of a `LayoutParam`. -/
def LayoutParam.params : LayoutParam → List LayoutParam
  | .mk _ ps => ps

/-- Modelled from the spec: `LayoutBinding` (section 3.3) —
`{ behavior: string (starts with &), params: seq of LayoutParam }`; the
pydantic class in `zmk_layout/models/core.py` is absent from src.  The
behavior string is the `value` field, as used throughout the validation
pipeline (`binding.value`). -/
structure LayoutBinding where
  value : String
  params : List LayoutParam
deriving Repr

/-- Renders a parameter value as a string. -/
def ParamValue.render : ParamValue → String
  | .int n => toString n
  | .str s => s

mutual

/-- Renders one parameter, from the spec's binding serialization rules
(section 4.6): a terminal renders its value, a parameterised one renders
`value(p1,p2,...)`. -/
def formatParam : LayoutParam → String
  | .mk v ps =>
    match ps with
    | [] => v.render
    | _ => v.render ++ "(" ++ String.intercalate "," (formatParamList ps) ++ ")"

/-- Renders a list of parameters, one string each. -/
def formatParamList : List LayoutParam → List String
  | [] => []
  | p :: ps => formatParam p :: formatParamList ps

end

/-- Modelled from the spec: `LayoutBinding.to_str` — section 4.6's
`format(binding) = behavior + (params empty ? "" : " " + joined params)`;
`models/core.py` is absent from src. -/
def LayoutBinding.to_str (b : LayoutBinding) : String :=
  match b.params with
  | [] => b.value
  | ps => b.value ++ " " ++ String.intercalate " " (ps.map formatParam)

/-- Scalar configuration / variable value (string, int or bool), following
spec section 4.6 (Kconfig values) and section 3.3 (`variables` map). -/
inductive ConfigValue where
  | str (s : String)
  | int (n : Int)
  | bool (b : Bool)
deriving Repr, DecidableEq

/-- Modelled from the spec: `HoldTap` (section 3.3). -/
structure HoldTapBehavior where
  name : String
  description : Option String
  bindings : List String
  tapping_term_ms : Option Int
  quick_tap_ms : Option Int
  flavor : Option String
deriving Repr, DecidableEq

/-- Modelled from the spec: `Combo` (section 3.3). -/
structure ComboBehavior where
  name : String
  key_positions : List Int
  binding : LayoutBinding
  timeout_ms : Option Int
  layers : Option (List Int)
  require_prior_idle_ms : Option Int
deriving Repr

/-- Modelled from the spec: `Macro` (section 3.3). -/
structure MacroBehavior where
  name : String
  bindings : List LayoutBinding
  wait_ms : Option Int
  tap_ms : Option Int
deriving Repr

/-- Modelled from the spec: `TapDance` (section 3.3). -/
structure TapDanceBehavior where
  name : String
  bindings : List LayoutBinding
  tapping_term_ms : Option Int
deriving Repr

/-- Modelled from the spec: one configuration parameter
(`configParameters` entry, sections 3.3 and 4.6). -/
structure ConfigParameter where
  name : String
  value : ConfigValue
deriving Repr, DecidableEq

/-- Modelled from the spec: `LayoutData` (sections 3.3 and 6.2) — the
top-level layout document.  The pydantic class in
`zmk_layout/models/metadata.py` is absent from src; fields follow the
spec's field list, with optional fields as `Option` (`none` = unset,
matching pydantic's unset tracking used by `exclude_unset`).  The source
field named `variables` is called `varDefs` here because `variables` is a
reserved word in Lean. -/
structure LayoutData where
  keyboard : String
  title : Option String
  layer_names : List String
  layers : List (List LayoutBinding)
  hold_taps : Option (List HoldTapBehavior)
  combos : Option (List ComboBehavior)
  macros : Option (List MacroBehavior)
  tap_dances : Option (List TapDanceBehavior)
  config_parameters : Option (List ConfigParameter)
  custom_defined_behaviors : Option String
  custom_devicetree : Option String
  varDefs : Option (List (String × ConfigValue))
  creator : Option String
  date : Option String
  uuid : Option String
  tags : Option (List String)
  version : Option String
  notes : Option String
deriving Repr

/-- The model invariant of spec section 3.3: as many layers as layer
names, and pairwise-distinct layer names. -/
def LayoutInvariant (d : LayoutData) : Prop :=
  d.layers.length = d.layer_names.length ∧ d.layer_names.Nodup

/-!
The LayerManager (`src/src/zmk_layout/core/managers/layer_manager.py`).
Python mutates `self._data` in place and raises on invalid arguments; the
embedding passes the state explicitly: each operation returns the
`LayoutData` as left after the operation together with `some message` when
the operation raised.  Statements are translated in source order, so a
`raise` before any mutation returns the input data unchanged, and a raise
after a mutation would return the mutated data.
-/

namespace LayerManager

/-- The tail of `LayerManager.add` and of `get`-returning operations:
`return self.get(name)` re-checks membership and raises when the layer is
absent (`LayerManager.get`, layer_manager.py lines 59-77). -/
def getAfter (d : LayoutData) (name : String) : LayoutData × Option String :=
  if name ∈ d.layer_names then (d, none)
  else (d, some ("Layer '" ++ name ++ "' not found"))

/-- `LayerManager.add` (layer_manager.py lines 27-57): reject an existing
name, append or insert at `position` (raising when out of range), then
`return self.get(name)`. -/
def add (d : LayoutData) (name : String) (position : Option Int) :
    LayoutData × Option String :=
  if name ∈ d.layer_names then
    (d, some ("Layer '" ++ name ++ "' already exists"))
  else
    match position with
    | none =>
      getAfter
        { d with layer_names := d.layer_names ++ [name], layers := d.layers ++ [[]] }
        name
    | some p =>
      if p < 0 ∨ (d.layer_names.length : Int) < p then
        (d, some ("Position " ++ toString p ++ " out of range"))
      else
        getAfter
          { d with
              layer_names := d.layer_names.insertIdx p.toNat name
              layers := d.layers.insertIdx p.toNat [] }
          name

/-- `LayerManager.get` raises exactly when the name is absent; it mutates
nothing (layer_manager.py lines 59-77). -/
def get (d : LayoutData) (name : String) : LayoutData × Option String :=
  if name ∈ d.layer_names then (d, none)
  else (d, some ("Layer '" ++ name ++ "' not found"))

/-- `LayerManager.remove` (layer_manager.py lines 78-97): check the name,
then pop the same index from `layer_names` and `layers`. -/
def remove (d : LayoutData) (name : String) : LayoutData × Option String :=
  if name ∈ d.layer_names then
    let index := d.layer_names.indexOf name
    ({ d with
        layer_names := d.layer_names.eraseIdx index
        layers := d.layers.eraseIdx index }, none)
  else (d, some ("Layer '" ++ name ++ "' not found"))

/-- `LayerManager.move` (layer_manager.py lines 99-127): check name and
position, pop the layer from both lists, re-insert at the new position. -/
def move (d : LayoutData) (name : String) (position : Int) :
    LayoutData × Option String :=
  if name ∉ d.layer_names then
    (d, some ("Layer '" ++ name ++ "' not found"))
  else if position < 0 ∨ (d.layer_names.length : Int) ≤ position then
    (d, some ("Position " ++ toString position ++ " out of range"))
  else
    let currentIndex := d.layer_names.indexOf name
    let layerName := d.layer_names.getD currentIndex name
    let layerData := d.layers.getD currentIndex []
    ({ d with
        layer_names :=
          (d.layer_names.eraseIdx currentIndex).insertIdx position.toNat layerName
        layers :=
          (d.layers.eraseIdx currentIndex).insertIdx position.toNat layerData },
      none)

/-- `LayerManager.rename` (layer_manager.py lines 129-151): check the old
name exists and the new one does not, then overwrite the entry in
`layer_names`; `layers` is untouched. -/
def rename (d : LayoutData) (oldName newName : String) :
    LayoutData × Option String :=
  if oldName ∉ d.layer_names then
    (d, some ("Layer '" ++ oldName ++ "' not found"))
  else if newName ∈ d.layer_names then
    (d, some ("Layer '" ++ newName ++ "' already exists"))
  else
    let index := d.layer_names.indexOf oldName
    ({ d with layer_names := d.layer_names.set index newName }, none)

/-- One binding passed through
`LayoutBinding.model_validate(binding.model_dump())` in
`LayerManager.copy`; on the embedded model this round-trip is the
identity (proved later as `parseBinding_toJson`), so the copy maps each
binding to itself. -/
def copyBinding (b : LayoutBinding) : LayoutBinding := b

/-- `LayerManager.copy` (layer_manager.py lines 153-182): check source and
target, deep-copy the source layer, append the target to both lists, then
`return self.get(target_name)`. -/
def copy (d : LayoutData) (sourceName targetName : String) :
    LayoutData × Option String :=
  if sourceName ∉ d.layer_names then
    (d, some ("Layer '" ++ sourceName ++ "' not found"))
  else if targetName ∈ d.layer_names then
    (d, some ("Layer '" ++ targetName ++ "' already exists"))
  else
    let sourceIndex := d.layer_names.indexOf sourceName
    let sourceLayer := d.layers.getD sourceIndex []
    let copiedLayer := sourceLayer.map copyBinding
    getAfter
      { d with
          layer_names := d.layer_names ++ [targetName]
          layers := d.layers ++ [copiedLayer] }
      targetName

/-- `LayerManager.clear` (layer_manager.py lines 184-204): check the name,
replace the layer's bindings with the empty list, then
`return self.get(name)`. -/
def clear (d : LayoutData) (name : String) : LayoutData × Option String :=
  if name ∈ d.layer_names then
    let index := d.layer_names.indexOf name
    getAfter { d with layers := d.layers.set index [] } name
  else (d, some ("Layer '" ++ name ++ "' not found"))

end LayerManager

/-- Inserting at an index within bounds permutes with consing. -/
theorem insertIdx_perm_cons (a : α) :
    ∀ (n : Nat) (l : List α), n ≤ l.length → List.Perm (l.insertIdx n a) (a :: l)
  | 0, l, _ => by simp [List.insertIdx_zero]
  | n + 1, [], h => by simp at h
  | n + 1, b :: l, h => by
    rw [List.insertIdx_succ_cons]
    exact ((insertIdx_perm_cons a n l (Nat.le_of_succ_le_succ h)).cons b).trans
      (List.Perm.swap a b l)

/-- Inserting a fresh element at an in-bounds index keeps a list duplicate
free. -/
theorem insertIdx_nodup {a : α} {n : Nat} {l : List α} (h : n ≤ l.length)
    (hl : l.Nodup) (ha : a ∉ l) : (l.insertIdx n a).Nodup :=
  ((insertIdx_perm_cons a n l h).nodup_iff).2 (List.nodup_cons.2 ⟨ha, hl⟩)

/-- The trailing `self.get(name)` of the manager operations never changes
the data. -/
theorem getAfter_fst (d : LayoutData) (name : String) :
    (LayerManager.getAfter d name).1 = d := by
  unfold LayerManager.getAfter
  split <;> rfl

/-- `LayerManager.add` preserves the model invariant. -/
theorem add_inv (d : LayoutData) (h : LayoutInvariant d) (name : String)
    (pos : Option Int) : LayoutInvariant (LayerManager.add d name pos).1 := by
  obtain ⟨hlen, hnd⟩ := h
  by_cases hmem : name ∈ d.layer_names
  · simp only [LayerManager.add, if_pos hmem]
    exact ⟨hlen, hnd⟩
  · cases pos with
    | none =>
      simp only [LayerManager.add, if_neg hmem, getAfter_fst]
      exact ⟨by simp [hlen],
        ((List.perm_append_singleton _ _).nodup_iff).2 (List.nodup_cons.2 ⟨hmem, hnd⟩)⟩
    | some p =>
      by_cases hpos : p < 0 ∨ (d.layer_names.length : Int) < p
      · simp only [LayerManager.add, if_neg hmem, if_pos hpos]
        exact ⟨hlen, hnd⟩
      · simp only [LayerManager.add, if_neg hmem, if_neg hpos, getAfter_fst]
        have hple : p ≤ (d.layer_names.length : Int) := by omega
        have hn : p.toNat ≤ d.layer_names.length := Int.toNat_le.2 hple
        have hn' : p.toNat ≤ d.layers.length := by omega
        constructor
        · show (d.layers.insertIdx p.toNat []).length =
            (d.layer_names.insertIdx p.toNat name).length
          rw [List.length_insertIdx _ _ hn', List.length_insertIdx _ _ hn]
          omega
        · exact insertIdx_nodup hn hnd hmem

/-- `LayerManager.remove` preserves the model invariant. -/
theorem remove_inv (d : LayoutData) (h : LayoutInvariant d) (name : String) :
    LayoutInvariant (LayerManager.remove d name).1 := by
  obtain ⟨hlen, hnd⟩ := h
  by_cases hmem : name ∈ d.layer_names
  · simp only [LayerManager.remove, if_pos hmem]
    have hidx : d.layer_names.indexOf name < d.layer_names.length :=
      List.indexOf_lt_length.2 hmem
    constructor
    · show (d.layers.eraseIdx _).length = (d.layer_names.eraseIdx _).length
      rw [List.length_eraseIdx, List.length_eraseIdx]
      have hidx' : d.layer_names.indexOf name < d.layers.length := by omega
      simp only [hidx, hidx', if_pos]
      omega
    · exact (List.eraseIdx_sublist _ _).nodup hnd
  · simp only [LayerManager.remove, if_neg hmem]
    exact ⟨hlen, hnd⟩

/-- `LayerManager.move` preserves the model invariant. -/
theorem move_inv (d : LayoutData) (h : LayoutInvariant d) (name : String)
    (p : Int) : LayoutInvariant (LayerManager.move d name p).1 := by
  obtain ⟨hlen, hnd⟩ := h
  by_cases hmem : name ∈ d.layer_names
  · by_cases hpos : p < 0 ∨ (d.layer_names.length : Int) ≤ p
    · simp only [LayerManager.move, if_neg (not_not_intro hmem), if_pos hpos]
      exact ⟨hlen, hnd⟩
    · simp only [LayerManager.move, if_neg (not_not_intro hmem), if_neg hpos]
      have hidx : d.layer_names.indexOf name < d.layer_names.length :=
        List.indexOf_lt_length.2 hmem
      have hnlt : p.toNat < d.layer_names.length := by omega
      have heraselen :
          (d.layer_names.eraseIdx (d.layer_names.indexOf name)).length =
            d.layer_names.length - 1 := by
        rw [List.length_eraseIdx]; simp [hidx]
      have herasedlen :
          (d.layers.eraseIdx (d.layer_names.indexOf name)).length =
            d.layers.length - 1 := by
        rw [List.length_eraseIdx]
        have hidx' : d.layer_names.indexOf name < d.layers.length := by omega
        simp [hidx']
      have hn : p.toNat ≤
          (d.layer_names.eraseIdx (d.layer_names.indexOf name)).length := by omega
      have hn' : p.toNat ≤
          (d.layers.eraseIdx (d.layer_names.indexOf name)).length := by omega
      have hnd' : (d.layer_names.eraseIdx (d.layer_names.indexOf name)).Nodup :=
        (List.eraseIdx_sublist _ _).nodup hnd
      have hnm : name ∉ d.layer_names.eraseIdx (d.layer_names.indexOf name) := by
        rw [List.eraseIdx_indexOf_eq_erase]
        intro hc
        exact ((hnd.mem_erase_iff).1 hc).1 rfl
      have hname : d.layer_names.getD (d.layer_names.indexOf name) name = name := by
        rw [List.getD_eq_getElem _ _ hidx]
        exact List.getElem_indexOf hidx
      constructor
      · show ((d.layers.eraseIdx _).insertIdx p.toNat _).length =
          ((d.layer_names.eraseIdx _).insertIdx p.toNat _).length
        rw [List.length_insertIdx _ _ hn', List.length_insertIdx _ _ hn]
        omega
      · show ((d.layer_names.eraseIdx _).insertIdx p.toNat
          (d.layer_names.getD _ name)).Nodup
        rw [hname]
        exact insertIdx_nodup hn hnd' hnm
  · simp only [LayerManager.move, if_pos hmem]
    exact ⟨hlen, hnd⟩

/-- `LayerManager.rename` preserves the model invariant. -/
theorem rename_inv (d : LayoutData) (h : LayoutInvariant d)
    (oldName newName : String) :
    LayoutInvariant (LayerManager.rename d oldName newName).1 := by
  obtain ⟨hlen, hnd⟩ := h
  by_cases hold : oldName ∈ d.layer_names
  · by_cases hnew : newName ∈ d.layer_names
    · simp only [LayerManager.rename, if_neg (not_not_intro hold), if_pos hnew]
      exact ⟨hlen, hnd⟩
    · simp only [LayerManager.rename, if_neg (not_not_intro hold), if_neg hnew]
      exact ⟨by simpa using hlen, hnd.set hnew⟩
  · simp only [LayerManager.rename, if_pos hold]
    exact ⟨hlen, hnd⟩

/-- `LayerManager.copy` preserves the model invariant. -/
theorem copy_inv (d : LayoutData) (h : LayoutInvariant d)
    (src tgt : String) : LayoutInvariant (LayerManager.copy d src tgt).1 := by
  obtain ⟨hlen, hnd⟩ := h
  by_cases hsrc : src ∈ d.layer_names
  · by_cases htgt : tgt ∈ d.layer_names
    · simp only [LayerManager.copy, if_neg (not_not_intro hsrc), if_pos htgt]
      exact ⟨hlen, hnd⟩
    · simp only [LayerManager.copy, if_neg (not_not_intro hsrc), if_neg htgt,
        getAfter_fst]
      exact ⟨by simp [hlen],
        ((List.perm_append_singleton _ _).nodup_iff).2 (List.nodup_cons.2 ⟨htgt, hnd⟩)⟩
  · simp only [LayerManager.copy, if_pos hsrc]
    exact ⟨hlen, hnd⟩

/-- `LayerManager.clear` preserves the model invariant. -/
theorem clear_inv (d : LayoutData) (h : LayoutInvariant d) (name : String) :
    LayoutInvariant (LayerManager.clear d name).1 := by
  obtain ⟨hlen, hnd⟩ := h
  by_cases hmem : name ∈ d.layer_names
  · simp only [LayerManager.clear, if_pos hmem, getAfter_fst]
    exact ⟨by simpa using hlen, hnd⟩
  · simp only [LayerManager.clear, if_neg hmem]
    exact ⟨hlen, hnd⟩

/-- C5: Every LayerManager operation (add, remove, move, rename, copy,
clear) preserves the model invariant `len(layers) == len(layer_names)`
together with pairwise-distinct layer names: if a `LayoutData` satisfies
both before the operation, it satisfies both after the operation
completes, normally or with an error. -/
theorem layer_manager_preserves_invariant
    (d : LayoutData) (h : LayoutInvariant d)
    (name src tgt oldN newN : String) (pos : Option Int) (p : Int) :
    LayoutInvariant (LayerManager.add d name pos).1 ∧
    LayoutInvariant (LayerManager.remove d name).1 ∧
    LayoutInvariant (LayerManager.move d name p).1 ∧
    LayoutInvariant (LayerManager.rename d oldN newN).1 ∧
    LayoutInvariant (LayerManager.copy d src tgt).1 ∧
    LayoutInvariant (LayerManager.clear d name).1 :=
  ⟨add_inv d h name pos, remove_inv d h name, move_inv d h name p,
    rename_inv d h oldN newN, copy_inv d h src tgt, clear_inv d h name⟩

/-- A sample three-layer layout: layer `base` holds the single binding
`&mo 5`, the other two layers are empty. -/
def sampleLayout : LayoutData :=
  { keyboard := "corne"
    title := some "Test layout"
    layer_names := ["base", "nav", "sym"]
    layers := [[⟨"&mo", [LayoutParam.mk (.int 5) []]⟩], [], []]
    hold_taps := none
    combos := none
    macros := none
    tap_dances := none
    config_parameters := none
    custom_defined_behaviors := none
    custom_devicetree := none
    varDefs := none
    creator := none
    date := none
    uuid := none
    tags := none
    version := none
    notes := none }

/-- Witness for C5 at a concrete layout: the invariant survives each
operation on `sampleLayout`. -/
theorem layer_manager_preserves_invariant_witness :
    LayoutInvariant (LayerManager.add sampleLayout "base" none).1 ∧
    LayoutInvariant (LayerManager.remove sampleLayout "base").1 ∧
    LayoutInvariant (LayerManager.move sampleLayout "base" 1).1 ∧
    LayoutInvariant (LayerManager.rename sampleLayout "base" "extra").1 ∧
    LayoutInvariant (LayerManager.copy sampleLayout "nav" "gaming").1 ∧
    LayoutInvariant (LayerManager.clear sampleLayout "base").1 :=
  layer_manager_preserves_invariant sampleLayout ⟨by decide, by decide⟩
    "base" "nav" "gaming" "base" "extra" none 1

/-- `LayerManager.add` leaves the data unchanged whenever it reports an
error: every raise happens before any mutation, and the trailing
`self.get(name)` cannot fail because the name was just inserted. -/
theorem add_atomic (d : LayoutData) (name : String) (pos : Option Int)
    (h : ((LayerManager.add d name pos).2).isSome) :
    (LayerManager.add d name pos).1 = d := by
  by_cases hmem : name ∈ d.layer_names
  · simp only [LayerManager.add, if_pos hmem]
  · cases pos with
    | none =>
      exfalso
      have hmem' : name ∈ d.layer_names ++ [name] := by simp
      simp only [LayerManager.add, if_neg hmem, LayerManager.getAfter,
        if_pos hmem'] at h
      simp at h
    | some p =>
      by_cases hpos : p < 0 ∨ (d.layer_names.length : Int) < p
      · simp only [LayerManager.add, if_neg hmem, if_pos hpos]
      · exfalso
        have hple : p ≤ (d.layer_names.length : Int) := by omega
        have hn : p.toNat ≤ d.layer_names.length := Int.toNat_le.2 hple
        have hmem' : name ∈ d.layer_names.insertIdx p.toNat name :=
          (List.mem_insertIdx hn).2 (Or.inl rfl)
        simp only [LayerManager.add, if_neg hmem, if_neg hpos,
          LayerManager.getAfter, if_pos hmem'] at h
        simp at h

/-- `LayerManager.copy` leaves the data unchanged whenever it reports an
error. -/
theorem copy_atomic (d : LayoutData) (src tgt : String)
    (h : ((LayerManager.copy d src tgt).2).isSome) :
    (LayerManager.copy d src tgt).1 = d := by
  by_cases hsrc : src ∈ d.layer_names
  · by_cases htgt : tgt ∈ d.layer_names
    · simp only [LayerManager.copy, if_neg (not_not_intro hsrc), if_pos htgt]
    · exfalso
      have hmem' : tgt ∈ d.layer_names ++ [tgt] := by simp
      simp only [LayerManager.copy, if_neg (not_not_intro hsrc), if_neg htgt,
        LayerManager.getAfter, if_pos hmem'] at h
      simp at h
  · simp only [LayerManager.copy, if_pos hsrc]

/-- C6: LayerManager operations fail atomically: `add` reports an error
whenever the name already exists (and whenever the given position is out
of range), `remove`, `get`, `rename` and `copy` report an error whenever
the referenced layer name is absent, and in every error case the
`LayoutData` is returned unchanged — no mutation happens before the error
surfaces. -/
theorem layer_manager_atomic_errors :
    (∀ (d : LayoutData) (name : String) (pos : Option Int),
      name ∈ d.layer_names → ((LayerManager.add d name pos).2).isSome) ∧
    (∀ (d : LayoutData) (name : String) (p : Int),
      p < 0 ∨ (d.layer_names.length : Int) < p →
        ((LayerManager.add d name (some p)).2).isSome) ∧
    (∀ (d : LayoutData) (name : String) (pos : Option Int),
      ((LayerManager.add d name pos).2).isSome →
        (LayerManager.add d name pos).1 = d) ∧
    (∀ (d : LayoutData) (name : String),
      name ∉ d.layer_names → ((LayerManager.remove d name).2).isSome) ∧
    (∀ (d : LayoutData) (name : String),
      ((LayerManager.remove d name).2).isSome → (LayerManager.remove d name).1 = d) ∧
    (∀ (d : LayoutData) (name : String),
      name ∉ d.layer_names → ((LayerManager.get d name).2).isSome) ∧
    (∀ (d : LayoutData) (name : String), (LayerManager.get d name).1 = d) ∧
    (∀ (d : LayoutData) (oldN newN : String),
      oldN ∉ d.layer_names → ((LayerManager.rename d oldN newN).2).isSome) ∧
    (∀ (d : LayoutData) (oldN newN : String),
      ((LayerManager.rename d oldN newN).2).isSome →
        (LayerManager.rename d oldN newN).1 = d) ∧
    (∀ (d : LayoutData) (src tgt : String),
      src ∉ d.layer_names → ((LayerManager.copy d src tgt).2).isSome) ∧
    (∀ (d : LayoutData) (src tgt : String),
      ((LayerManager.copy d src tgt).2).isSome →
        (LayerManager.copy d src tgt).1 = d) := by
  refine ⟨?_, ?_, add_atomic, ?_, ?_, ?_, ?_, ?_, ?_, ?_, copy_atomic⟩
  · intro d name pos hmem
    cases pos <;> simp [LayerManager.add, if_pos hmem]
  · intro d name p hpos
    by_cases hmem : name ∈ d.layer_names
    · simp [LayerManager.add, if_pos hmem]
    · simp [LayerManager.add, if_neg hmem, if_pos hpos]
  · intro d name hmem
    simp [LayerManager.remove, if_neg hmem]
  · intro d name h
    by_cases hmem : name ∈ d.layer_names
    · simp only [LayerManager.remove, if_pos hmem] at h
      simp at h
    · simp [LayerManager.remove, if_neg hmem]
  · intro d name hmem
    simp [LayerManager.get, if_neg hmem]
  · intro d name
    by_cases hmem : name ∈ d.layer_names <;>
      simp [LayerManager.get, hmem]
  · intro d oldN newN hold
    simp [LayerManager.rename, if_pos hold]
  · intro d oldN newN h
    by_cases hold : oldN ∈ d.layer_names
    · by_cases hnew : newN ∈ d.layer_names
      · simp [LayerManager.rename, if_neg (not_not_intro hold), if_pos hnew]
      · simp only [LayerManager.rename, if_neg (not_not_intro hold),
          if_neg hnew] at h
        simp at h
    · simp [LayerManager.rename, if_pos hold]
  · intro d src tgt hsrc
    simp [LayerManager.copy, if_pos hsrc]

/-- Witness for C6 at concrete inputs on `sampleLayout`: adding an
existing layer errors and leaves the data unchanged, and removing a
missing layer errors. -/
theorem layer_manager_atomic_errors_witness :
    ((LayerManager.add sampleLayout "base" none).2).isSome ∧
    (LayerManager.add sampleLayout "base" none).1 = sampleLayout ∧
    ((LayerManager.remove sampleLayout "missing").2).isSome := by
  refine ⟨layer_manager_atomic_errors.1 sampleLayout "base" none (by decide), ?_, ?_⟩
  · exact layer_manager_atomic_errors.2.2.1 sampleLayout "base" none
      (layer_manager_atomic_errors.1 sampleLayout "base" none (by decide))
  · exact layer_manager_atomic_errors.2.2.2.1 sampleLayout "missing" (by decide)

/-!
The validation pipeline (`src/src/zmk_layout/validation/pipeline.py`).
Errors and warnings carry a message and a context dictionary; the
dictionary is embedded as a key/value list in insertion order.
-/

/-- A context value stored in an error/warning context dictionary. -/
inductive CtxVal where
  | str (s : String)
  | int (n : Int)
  | strList (l : List String)
deriving Repr, DecidableEq

/-- `ValidationError` (pipeline.py lines 12-21): message plus context. -/
structure ValidationError where
  message : String
  context : List (String × CtxVal)
deriving Repr, DecidableEq

/-- `ValidationWarning` (pipeline.py lines 24-33): message plus context. -/
structure ValidationWarning where
  message : String
  context : List (String × CtxVal)
deriving Repr, DecidableEq

/-- `ValidationState` (pipeline.py lines 36-40): the immutable pair of
accumulated errors and warnings. -/
structure ValidationState where
  errors : List ValidationError
  warnings : List ValidationWarning
deriving Repr, DecidableEq

/-- `ValidationSummary` (pipeline.py lines 43-49). -/
structure ValidationSummary where
  errors : List ValidationError
  warnings : List ValidationWarning
  is_valid : Bool
deriving Repr, DecidableEq

/-- `ValidationPipeline` (pipeline.py lines 52-81): a layout plus a
validation state. -/
structure ValidationPipeline where
  layout : LayoutData
  state : ValidationState

/-- `ValidationPipeline.__init__` with no initial state: empty error and
warning tuples. -/
def ValidationPipeline.init (d : LayoutData) : ValidationPipeline :=
  { layout := d, state := { errors := [], warnings := [] } }

/-- Modelled from the spec: `LayerProxy.bindings` — proxies resolve the
bindings by layer name on each call (spec section 4.4);
`core/managers/layer_proxy.py` is absent from src. -/
def layerBindings (d : LayoutData) (name : String) : List LayoutBinding :=
  d.layers.getD (d.layer_names.indexOf name) []

/-- Python's `str.startswith`, written on the character lists so that it
evaluates inside the kernel (`String.startsWith` is definitionally
opaque there). -/
def strStartsWith (s pre : String) : Bool :=
  pre.data.isPrefixOf s.data

/-- The first `_`-separated segment of a string — Python's
`value.split("_")[0]`: the characters before the first underscore. -/
def splitHead (s : String) : String :=
  ⟨s.data.takeWhile (fun c => c != '_')⟩

/-- The known-good behavior set of `validate_bindings`
(pipeline.py lines 115-135). -/
def knownBehaviors : List String :=
  ["&kp", "&mt", "&lt", "&mo", "&to", "&tog", "&sl", "&trans", "&none",
   "&bootloader", "&reset", "&key_repeat", "&caps_word", "&sk", "&gresc",
   "&rgb_ug", "&bt", "&ext_power", "&out"]

/-- The diagnostics `validate_bindings` emits for one binding
(pipeline.py lines 95-155): a syntax error when the value does not start
with `&`, then an unknown-behavior error when the first `_`-segment is
outside the known set, the value does not start with `&hm`, and the value
is not a `&`-string of length greater than one. -/
def bindingDiag (layerName : String) (i : Nat) (b : LayoutBinding) :
    List ValidationError :=
  (if ¬ strStartsWith b.value "&" then
    [{ message := "Invalid binding syntax in layer '" ++ layerName ++
        "' at position " ++ toString i ++ ": " ++ b.value
       context := [("layer", .str layerName), ("position", .int i),
         ("binding", .str b.to_str)] }]
  else []) ++
  (let behaviorBase := splitHead b.value
   if behaviorBase ∉ knownBehaviors ∧ ¬ strStartsWith b.value "&hm" ∧
      ¬ (strStartsWith b.value "&" ∧ 1 < b.value.length) then
    [{ message := "Unknown behavior in layer '" ++ layerName ++
        "' at position " ++ toString i ++ ": " ++ b.value
       context := [("layer", .str layerName), ("position", .int i),
         ("binding", .str b.to_str)] }]
  else [])

/-- All errors collected by `validate_bindings` over the layout, iterating
layers then bindings in order. -/
def bindingErrors (d : LayoutData) : List ValidationError :=
  d.layer_names.flatMap (fun layerName =>
    ((layerBindings d layerName).enum).flatMap (fun ib =>
      bindingDiag layerName ib.1 ib.2))

/-- `ValidationPipeline.validate_bindings` (pipeline.py lines 82-165):
returns a new pipeline whose state appends the collected errors; the
warning tuple is reused as is. -/
def validate_bindings (p : ValidationPipeline) : ValidationPipeline :=
  { layout := p.layout
    state := { errors := p.state.errors ++ bindingErrors p.layout
               warnings := p.state.warnings } }

/-- The behaviors of `validate_layer_references` that take a layer
reference as first parameter (pipeline.py line 186). -/
def layerRefTriggers : List String := ["&mo", "&lt", "&sl", "&to", "&tog"]

/-- The diagnostics `validate_layer_references` emits for one binding
(pipeline.py lines 183-221): for `&mo &lt &sl &to &tog` with at least one
parameter, an out-of-bounds error for an integer reference outside
`[0, layer_count)` and an unknown-layer error for a string reference that
is no layer name and does not look like an unresolved define. -/
def layerRefDiag (layerNames : List String) (layerName : String) (i : Nat)
    (b : LayoutBinding) : List ValidationError :=
  let layerCount := layerNames.length
  if b.value ∈ layerRefTriggers ∧ b.params.isEmpty = false then
    match b.params.head? with
    | none => []
    | some p0 =>
      match p0.value with
      | .int layerRef =>
        if layerRef < 0 ∨ (layerCount : Int) ≤ layerRef then
          [{ message := "Layer reference out of bounds in '" ++ layerName ++
              "': " ++ toString layerRef ++ " (valid: 0-" ++
              toString ((layerCount : Int) - 1) ++ ") in " ++ b.to_str
             context := [("layer", .str layerName), ("position", .int i),
               ("reference", .int layerRef),
               ("max_layer", .int ((layerCount : Int) - 1))] }]
        else []
      | .str layerRef =>
        if layerRef ∉ layerNames ∧ ¬ strStartsWith layerRef "$" ∧
            ¬ strStartsWith layerRef "\x7b\x7b" then
          [{ message := "Unknown layer reference in '" ++ layerName ++
              "': '" ++ layerRef ++ "' in " ++ b.to_str
             context := [("layer", .str layerName), ("position", .int i),
               ("reference", .str layerRef),
               ("available_layers", .strList layerNames)] }]
        else []
  else []

/-- All errors collected by `validate_layer_references` over the layout. -/
def layerRefErrors (d : LayoutData) : List ValidationError :=
  d.layer_names.flatMap (fun layerName =>
    ((layerBindings d layerName).enum).flatMap (fun ib =>
      layerRefDiag d.layer_names layerName ib.1 ib.2))

/-- `ValidationPipeline.validate_layer_references`
(pipeline.py lines 167-227). -/
def validate_layer_references (p : ValidationPipeline) : ValidationPipeline :=
  { layout := p.layout
    state := { errors := p.state.errors ++ layerRefErrors p.layout
               warnings := p.state.warnings } }

/-- The warnings `validate_key_positions` emits (pipeline.py lines
240-253): one per layer with more bindings than `max_keys`. -/
def keyPosWarnings (d : LayoutData) (maxKeys : Nat) : List ValidationWarning :=
  d.layer_names.flatMap (fun layerName =>
    let bindingCount := (layerBindings d layerName).length
    if maxKeys < bindingCount then
      [{ message := "Layer '" ++ layerName ++ "' has " ++ toString bindingCount ++
          " bindings, more than recommended " ++ toString maxKeys
         context := [("layer", .str layerName), ("count", .int bindingCount),
           ("max", .int maxKeys)] }]
    else [])

/-- The errors `validate_key_positions` emits (pipeline.py lines
255-265): one per layer with more than 200 bindings. -/
def keyPosErrors (d : LayoutData) : List ValidationError :=
  d.layer_names.flatMap (fun layerName =>
    let bindingCount := (layerBindings d layerName).length
    if 200 < bindingCount then
      [{ message := "Layer '" ++ layerName ++
          "' has unusually high key count: " ++ toString bindingCount
         context := [("layer", .str layerName), ("count", .int bindingCount)] }]
    else [])

/-- `ValidationPipeline.validate_key_positions`
(pipeline.py lines 229-273). -/
def validate_key_positions (p : ValidationPipeline) (maxKeys : Nat := 100) :
    ValidationPipeline :=
  { layout := p.layout
    state := { errors := p.state.errors ++ keyPosErrors p.layout
               warnings := p.state.warnings ++ keyPosWarnings p.layout maxKeys } }

/-- The custom-behavior references collected by
`validate_behavior_references` (pipeline.py lines 288-297): bindings whose
value starts with `&`, contains an underscore, and whose first
`_`-segment is one of `&hm &hrm &ht &sk &sl`.  The Python code stores
them in a set; the embedding keeps the distinct values in first-seen
order. -/
def customBehaviorRefs (d : LayoutData) : List String :=
  (d.layer_names.flatMap (fun layerName =>
    (layerBindings d layerName).filterMap (fun b =>
      if strStartsWith b.value "&" ∧ b.value.data.contains '_' ∧
          splitHead b.value ∈ ["&hm", "&hrm", "&ht", "&sk", "&sl"]
      then some b.value else none))).dedup

/-- `ValidationPipeline.validate_behavior_references`
(pipeline.py lines 275-313): a single warning listing the sorted custom
behavior references, when any exist; errors are untouched. -/
def validate_behavior_references (p : ValidationPipeline) : ValidationPipeline :=
  let customBehaviors := customBehaviorRefs p.layout
  let newWarnings : List ValidationWarning :=
    if customBehaviors ≠ [] then
      [{ message := "Found " ++ toString customBehaviors.length ++
          " custom behavior references. " ++
          "Ensure these are defined in your ZMK configuration."
         context := [("behaviors",
           .strList (customBehaviors.mergeSort (fun a b => a ≤ b)))] }]
    else []
  { layout := p.layout
    state := { errors := p.state.errors
               warnings := p.state.warnings ++ newWarnings } }

/-- `ValidationPipeline.validate_combo_positions`
(pipeline.py lines 315-371): the whole body is guarded by
`hasattr(self._layout, "combos")`, and the `Layout` facade
(`src/src/zmk_layout/core/layout.py`) defines no `combos` attribute, so
no diagnostics are ever collected; a new pipeline with the same
accumulated errors and warnings is returned. -/
def validate_combo_positions (p : ValidationPipeline) : ValidationPipeline :=
  { layout := p.layout
    state := { errors := p.state.errors ++ []
               warnings := p.state.warnings ++ [] } }

/-- `ValidationPipeline.collect_errors` (pipeline.py lines 373-379). -/
def collect_errors (p : ValidationPipeline) : List ValidationError :=
  p.state.errors

/-- `ValidationPipeline.collect_warnings` (pipeline.py lines 381-387). -/
def collect_warnings (p : ValidationPipeline) : List ValidationWarning :=
  p.state.warnings

/-- `ValidationPipeline.is_valid` (pipeline.py lines 389-395):
no accumulated errors. -/
def ValidationPipeline.is_valid (p : ValidationPipeline) : Bool :=
  p.state.errors.length == 0

/-- `ValidationPipeline.summary` (pipeline.py lines 397-407). -/
def ValidationPipeline.summary (p : ValidationPipeline) : ValidationSummary :=
  { errors := p.state.errors
    warnings := p.state.warnings
    is_valid := p.is_valid }

/-- C7: Every ValidationPipeline check returns a new pipeline whose error
and warning sequences extend those of the receiver, keeps the underlying
layout untouched (each check rebuilds the state from the receiver's state
and returns `ValidationPipeline(self._layout, new_state)`), and on any
pipeline the summary's `is_valid` is true exactly when the accumulated
errors are empty. -/
theorem validation_pipeline_immutable_accumulation :
    (∀ p : ValidationPipeline, ∃ es ws,
      (validate_bindings p).state.errors = p.state.errors ++ es ∧
      (validate_bindings p).state.warnings = p.state.warnings ++ ws ∧
      (validate_bindings p).layout = p.layout) ∧
    (∀ p : ValidationPipeline, ∃ es ws,
      (validate_layer_references p).state.errors = p.state.errors ++ es ∧
      (validate_layer_references p).state.warnings = p.state.warnings ++ ws ∧
      (validate_layer_references p).layout = p.layout) ∧
    (∀ (p : ValidationPipeline) (maxKeys : Nat), ∃ es ws,
      (validate_key_positions p maxKeys).state.errors = p.state.errors ++ es ∧
      (validate_key_positions p maxKeys).state.warnings = p.state.warnings ++ ws ∧
      (validate_key_positions p maxKeys).layout = p.layout) ∧
    (∀ p : ValidationPipeline, ∃ es ws,
      (validate_behavior_references p).state.errors = p.state.errors ++ es ∧
      (validate_behavior_references p).state.warnings = p.state.warnings ++ ws ∧
      (validate_behavior_references p).layout = p.layout) ∧
    (∀ p : ValidationPipeline, ∃ es ws,
      (validate_combo_positions p).state.errors = p.state.errors ++ es ∧
      (validate_combo_positions p).state.warnings = p.state.warnings ++ ws ∧
      (validate_combo_positions p).layout = p.layout) ∧
    (∀ p : ValidationPipeline, p.summary.is_valid = true ↔ p.state.errors = []) := by
  refine ⟨?_, ?_, ?_, ?_, ?_, ?_⟩
  · intro p
    exact ⟨bindingErrors p.layout, [], rfl, by simp [validate_bindings], rfl⟩
  · intro p
    exact ⟨layerRefErrors p.layout, [], rfl, by simp [validate_layer_references], rfl⟩
  · intro p maxKeys
    exact ⟨keyPosErrors p.layout, keyPosWarnings p.layout maxKeys, rfl, rfl, rfl⟩
  · intro p
    exact ⟨[], _, by simp [validate_behavior_references], rfl, rfl⟩
  · intro p
    exact ⟨[], [], rfl, rfl, rfl⟩
  · intro p
    simp [ValidationPipeline.summary, ValidationPipeline.is_valid,
      List.length_eq_zero]


/-- The single error expected from validating `sampleLayout`'s layer
references. -/
def sampleOutOfBoundsError : ValidationError :=
  { message := "Layer reference out of bounds in 'base': 5 (valid: 0-2) in &mo 5"
    context := [("layer", .str "base"), ("position", .int 0),
      ("reference", .int 5), ("max_layer", .int 2)] }

/-- The claim's criterion for a layer-reference error: the behavior is one
of `&mo &lt &sl &to &tog` and the first parameter is either an integer
outside `[0, len(layer_names))`, or a string that is not an existing layer
name and does not start with `$` or with two opening braces. -/
def BadLayerRef (layerNames : List String) (b : LayoutBinding) : Prop :=
  b.value ∈ ["&mo", "&lt", "&sl", "&to", "&tog"] ∧
  match b.params.head? with
  | none => False
  | some p0 =>
    match p0.value with
    | .int n => n < 0 ∨ (layerNames.length : Int) ≤ n
    | .str s => s ∉ layerNames ∧ ¬ strStartsWith s "$" ∧
        ¬ strStartsWith s "\x7b\x7b"

/-- C4: `validate_layer_references` appends exactly the per-binding
layer-reference diagnostics, a binding produces a diagnostic precisely
when it meets the claim's criterion (`BadLayerRef`), and on the concrete
three-layer `sampleLayout` holding `&mo 5` the pipeline is invalid with a
single error whose message contains `5` and whose context records
`reference = 5` and `max_layer = 2`. -/
theorem validate_layer_references_exact :
    (∀ p : ValidationPipeline,
      (validate_layer_references p).state.errors =
        p.state.errors ++ layerRefErrors p.layout) ∧
    (∀ (layerNames : List String) (layerName : String) (i : Nat)
        (b : LayoutBinding),
      layerRefDiag layerNames layerName i b ≠ [] ↔ BadLayerRef layerNames b) ∧
    ((validate_layer_references (ValidationPipeline.init sampleLayout)).is_valid
      = false) ∧
    (∃ e, (validate_layer_references
        (ValidationPipeline.init sampleLayout)).state.errors = [e] ∧
      (∃ pre post, e.message = pre ++ "5" ++ post) ∧
      ("reference", CtxVal.int 5) ∈ e.context ∧
      ("max_layer", CtxVal.int 2) ∈ e.context) := by
  refine ⟨fun p => rfl, ?_, by decide, ?_⟩
  · intro layerNames layerName i b
    obtain ⟨v, ps⟩ := b
    have htrig : (v ∈ layerRefTriggers) ↔
        (v ∈ ["&mo", "&lt", "&sl", "&to", "&tog"]) := Iff.rfl
    cases ps with
    | nil =>
      simp [layerRefDiag, BadLayerRef]
    | cons p0 rest =>
      obtain ⟨pv, pps⟩ := p0
      by_cases hmem : v ∈ layerRefTriggers
      · cases pv with
        | int n =>
          by_cases hn : n < 0 ∨ (layerNames.length : Int) ≤ n
          · simp only [layerRefDiag, BadLayerRef]
            simp [hmem, htrig.1 hmem, hn, LayoutParam.value]
          · simp only [layerRefDiag, BadLayerRef]
            simp [hmem, hn, LayoutParam.value]
        | str s =>
          by_cases hs : s ∉ layerNames ∧ ¬ strStartsWith s "$" ∧
              ¬ strStartsWith s "\x7b\x7b"
          · simp only [layerRefDiag, BadLayerRef]
            simp [hmem, htrig.1 hmem, hs, LayoutParam.value]
          · simp only [layerRefDiag, BadLayerRef]
            simp only [List.head?, LayoutParam.value]
            rw [if_pos ⟨hmem, rfl⟩, if_neg hs]
            constructor
            · intro hc
              exact absurd rfl hc
            · intro hc
              exact (hs hc.2).elim
      · have hmem' : ¬ (v ∈ ["&mo", "&lt", "&sl", "&to", "&tog"]) :=
          fun hc => hmem (htrig.2 hc)
        simp only [layerRefDiag, BadLayerRef]
        have : ¬ (v ∈ layerRefTriggers ∧
            (((LayoutParam.mk pv pps) :: rest : List LayoutParam).isEmpty = false)) :=
          fun hc => hmem hc.1
        rw [if_neg this]
        simp [hmem']
  · refine ⟨sampleOutOfBoundsError, by decide,
      ⟨"Layer reference out of bounds in 'base': ", " (valid: 0-2) in &mo 5",
        by decide⟩, by decide, by decide⟩

/-- A one-layer layout whose single binding `&zzz` names a behavior
outside the known-good set and matching no user-defined behavior. -/
def unknownBindingLayout : LayoutData :=
  { keyboard := "generic"
    title := none
    layer_names := ["base"]
    layers := [[⟨"&zzz", []⟩]]
    hold_taps := none
    combos := none
    macros := none
    tap_dances := none
    config_parameters := none
    custom_defined_behaviors := none
    custom_devicetree := none
    varDefs := none
    creator := none
    date := none
    uuid := none
    tags := none
    version := none
    notes := none }

/-- Counterexample to C8: the binding `&zzz` starts with `&`, names a
behavior outside the known-good set and matches no user-defined behavior,
yet `validate_bindings` emits neither a warning nor an error — the claimed
warning never appears, because the unknown-behavior branch is unreachable
for any `&`-binding longer than one character
(pipeline.py lines 137-141). -/
theorem validate_bindings_unknown_no_warning :
    (validate_bindings
      (ValidationPipeline.init unknownBindingLayout)).state.warnings = [] ∧
    (validate_bindings
      (ValidationPipeline.init unknownBindingLayout)).state.errors = [] := by
  exact ⟨rfl, by decide⟩

/-- C8 (amended): in the bindings check, every binding whose value does
not start with `&` is reported as an error; no warning is ever produced by
`validate_bindings`; and a binding whose value starts with `&` and is
longer than one character yields no diagnostic at all, even when its
behavior is outside the known-good set. -/
theorem validate_bindings_amended :
    (∀ p : ValidationPipeline,
      (validate_bindings p).state.warnings = p.state.warnings) ∧
    (∀ p : ValidationPipeline,
      (validate_bindings p).state.errors = p.state.errors ++ bindingErrors p.layout) ∧
    (∀ (layerName : String) (i : Nat) (b : LayoutBinding),
      ¬ strStartsWith b.value "&" → bindingDiag layerName i b ≠ []) ∧
    (∀ (layerName : String) (i : Nat) (b : LayoutBinding),
      strStartsWith b.value "&" → 1 < b.value.length →
        bindingDiag layerName i b = []) := by
  refine ⟨fun p => rfl, fun p => rfl, ?_, ?_⟩
  · intro layerName i b hns
    simp only [bindingDiag, if_neg (fun hc => hns hc)]
    rw [if_pos hns]
    simp
  · intro layerName i b hs hlen
    have h1 : ¬ ¬ strStartsWith b.value "&" = true := not_not_intro hs
    simp only [bindingDiag]
    rw [if_neg h1]
    have h2 : ¬ ((splitHead b.value) ∉ knownBehaviors ∧
        ¬ strStartsWith b.value "&hm" ∧
        ¬ (strStartsWith b.value "&" ∧ 1 < b.value.length)) :=
      fun hc => hc.2.2 ⟨hs, hlen⟩
    rw [if_neg h2]
    simp

/-- Witness for the amended C8 at concrete bindings: `kp` (no ampersand)
gets a diagnostic, `&zzz` (unknown behavior) gets none. -/
theorem validate_bindings_amended_witness :
    bindingDiag "base" 0 ⟨"kp", []⟩ ≠ [] ∧
    bindingDiag "base" 0 ⟨"&zzz", []⟩ = [] :=
  ⟨validate_bindings_amended.2.2.1 "base" 0 ⟨"kp", []⟩ (by decide),
   validate_bindings_amended.2.2.2 "base" 0 ⟨"&zzz", []⟩ (by decide) (by decide)⟩

/-!
The keymap builder (`src/zmk_layout/generators/keymap_generator.py`).
`KeymapBuilder._generate_direct` consumes the string fragments that
`_build_context` placed in the template context dictionary, plus the
`include_headers` builder flag, plus the wall clock (it embeds
`datetime.now().year` in the license banner).  The embedding makes the
context a record and the current year an explicit argument.
-/

/-- The fragments of the `_build_context` dictionary that
`_generate_direct` reads (keymap_generator.py lines 361-376 and 508-587). -/
structure KeymapContext where
  resolved_includes : String
  key_position_header : String
  layer_defines : String
  custom_defined_behaviors : String
  user_behaviors_dtsi : String
  user_tap_dances_dtsi : String
  combos_dtsi : String
  user_macros_dtsi : String
  system_behaviors_dts : String
  custom_devicetree : String
  keymap_node : String
deriving Repr, DecidableEq

/-- `KeymapBuilder._generate_direct` (keymap_generator.py lines 508-587):
appends the parts in source order — license banner and includes when
headers are on, then each fragment guarded by Python truthiness (the
non-empty-string test), then the unconditional keymap node — and joins
them with newlines. -/
def generateDirect (includeHeaders : Bool) (ctx : KeymapContext)
    (year : Int) : String :=
  let parts : List String :=
    (if includeHeaders then
      ["/*", " * Copyright (c) " ++ toString year ++ " The ZMK Contributors",
       " * SPDX-License-Identifier: MIT", " */", ""] ++
      (if ctx.resolved_includes ≠ "" then [ctx.resolved_includes, ""] else [])
    else []) ++
    (if ctx.key_position_header ≠ "" then [ctx.key_position_header, ""] else []) ++
    (if ctx.layer_defines ≠ "" then [ctx.layer_defines, ""] else []) ++
    (if ctx.custom_defined_behaviors ≠ "" then
      [ctx.custom_defined_behaviors, ""] else []) ++
    (if ctx.user_behaviors_dtsi ≠ "" then
      ["/ \x7b", ctx.user_behaviors_dtsi, "\x7d;", ""] else []) ++
    (if ctx.user_tap_dances_dtsi ≠ "" then
      ["/ \x7b", ctx.user_tap_dances_dtsi, "\x7d;", ""] else []) ++
    (if ctx.combos_dtsi ≠ "" then [ctx.combos_dtsi, ""] else []) ++
    (if ctx.user_macros_dtsi ≠ "" then [ctx.user_macros_dtsi, ""] else []) ++
    (if ctx.system_behaviors_dts ≠ "" then
      [ctx.system_behaviors_dts, ""] else []) ++
    (if ctx.custom_devicetree ≠ "" then [ctx.custom_devicetree, ""] else []) ++
    ["/ \x7b", ctx.keymap_node, "\x7d;"]
  String.intercalate "\n" parts

/-- The license-banner section of the claimed fragment order: present
exactly when headers are enabled. -/
def licenseSection (includeHeaders : Bool) (year : Int) : List String :=
  if includeHeaders then
    ["/*", " * Copyright (c) " ++ toString year ++ " The ZMK Contributors",
     " * SPDX-License-Identifier: MIT", " */", ""]
  else []

/-- The includes section: present exactly when headers are enabled and
the resolved include list is non-empty. -/
def includesSection (includeHeaders : Bool) (ctx : KeymapContext) :
    List String :=
  if includeHeaders ∧ ctx.resolved_includes ≠ "" then
    [ctx.resolved_includes, ""]
  else []

/-- A plain optional section: the fragment followed by a blank separator
line, or nothing at all when the fragment is empty. -/
def optSection (fragment : String) : List String :=
  if fragment ≠ "" then [fragment, ""] else []

/-- An optional devicetree-node section, wrapped in `/ { ... };`, or
nothing at all when the fragment is empty. -/
def nodeSection (fragment : String) : List String :=
  if fragment ≠ "" then ["/ \x7b", fragment, "\x7d;", ""] else []

/-- The final, unconditional keymap-node section. -/
def keymapSection (ctx : KeymapContext) : List String :=
  ["/ \x7b", ctx.keymap_node, "\x7d;"]

/-- The claimed fragment order of spec section 4.7: license, includes,
key-position header, layer defines, custom defined behaviors, behaviors
node, tap-dances node, combos, macros, system behaviors, custom
devicetree, keymap node. -/
def claimedSections (includeHeaders : Bool) (ctx : KeymapContext)
    (year : Int) : List (List String) :=
  [licenseSection includeHeaders year,
   includesSection includeHeaders ctx,
   optSection ctx.key_position_header,
   optSection ctx.layer_defines,
   optSection ctx.custom_defined_behaviors,
   nodeSection ctx.user_behaviors_dtsi,
   nodeSection ctx.user_tap_dances_dtsi,
   optSection ctx.combos_dtsi,
   optSection ctx.user_macros_dtsi,
   optSection ctx.system_behaviors_dts,
   optSection ctx.custom_devicetree,
   keymapSection ctx]

/-- C3: Without a template, the generated keymap is the newline join of
the claimed sections in exactly the claimed order, and every optional
section collapses to nothing precisely when its fragment is empty or its
feature is disabled (the keymap node is always emitted). -/
theorem generate_direct_section_order :
    (∀ (includeHeaders : Bool) (ctx : KeymapContext) (year : Int),
      generateDirect includeHeaders ctx year =
        String.intercalate "\n"
          (List.flatten (claimedSections includeHeaders ctx year))) ∧
    (∀ fragment, optSection fragment = [] ↔ fragment = "") ∧
    (∀ fragment, nodeSection fragment = [] ↔ fragment = "") ∧
    (∀ year, ∀ includeHeaders,
      (licenseSection includeHeaders year = [] ↔ includeHeaders = false)) ∧
    (∀ includeHeaders (ctx : KeymapContext),
      (includesSection includeHeaders ctx = [] ↔
        includeHeaders = false ∨ ctx.resolved_includes = "")) := by
  refine ⟨?_, ?_, ?_, ?_, ?_⟩
  · intro includeHeaders ctx year
    cases includeHeaders <;>
      simp [generateDirect, claimedSections, licenseSection, includesSection,
        optSection, nodeSection, keymapSection, List.flatten]
  · intro fragment
    by_cases h : fragment = "" <;> simp [optSection, h]
  · intro fragment
    by_cases h : fragment = "" <;> simp [nodeSection, h]
  · intro year includeHeaders
    cases includeHeaders <;> simp [licenseSection]
  · intro includeHeaders ctx
    cases includeHeaders <;>
      by_cases h : ctx.resolved_includes = "" <;>
        simp [includesSection, h]

/-- A concrete template context with includes, layer defines and a keymap
node. -/
def sampleKeymapContext : KeymapContext :=
  { resolved_includes := "#include <dt-bindings/zmk/keys.h>"
    key_position_header := ""
    layer_defines := "#define BASE 0"
    custom_defined_behaviors := ""
    user_behaviors_dtsi := ""
    user_tap_dances_dtsi := ""
    combos_dtsi := ""
    user_macros_dtsi := ""
    system_behaviors_dts := ""
    custom_devicetree := ""
    keymap_node := "    keymap \x7b compatible = \"zmk,keymap\"; \x7d;" }

/-- Counterexample to C2: with headers enabled (the builder default), the
license banner embeds `datetime.now().year`, so two invocations of
`generate()` on the same layout and builder configuration that observe
different wall-clock years produce different bytes — emission is not a
function of the layout and configuration alone. -/
theorem generate_direct_year_counterexample :
    generateDirect true sampleKeymapContext 2025 ≠
      generateDirect true sampleKeymapContext 2026 := by decide

/-- C2 (amended): `_generate_direct` is a pure function of the layout
fragments, the builder configuration and the current wall-clock year; the
year is the only time dependence, so output is byte-identical whenever
headers are disabled (no banner) or the two invocations observe the same
year. -/
theorem generate_direct_deterministic_amended
    (includeHeaders : Bool) (ctx : KeymapContext) (y y' : Int)
    (h : includeHeaders = false ∨ y = y') :
    generateDirect includeHeaders ctx y =
      generateDirect includeHeaders ctx y' := by
  rcases h with h | h
  · subst h
    simp [generateDirect]
  · subst h
    rfl

/-- Witness for the amended C2: with headers off, the 2025 and 2026
outputs coincide on the sample context. -/
theorem generate_direct_deterministic_amended_witness :
    generateDirect false sampleKeymapContext 2025 =
      generateDirect false sampleKeymapContext 2026 :=
  generate_direct_deterministic_amended false sampleKeymapContext 2025 2026
    (Or.inl rfl)

/-!
Devicetree comments (C9).  The tokenizer and `dt_parser.py` are absent
from src (only `tests/test_comment_detection_fix.py` exercises them), so
the comment construction is modelled from the spec: `DTComment` carries
the raw text and `is_block` (spec section 3.2), and the parser computes
`is_block` as `bool(re.match(r"/\*(.|\n)*?\*/", text, re.DOTALL))`
(dt_parser.py line 606, quoted by the test).  As a boolean, that
anchored, lazy match succeeds exactly when the text starts with `/*` and
the characters after it contain `*/` somewhere — regardless of newlines,
thanks to DOTALL.
-/

/-- Modelled from the spec: `DTComment { text, is_block }`
(spec section 3.2); `parsers/ast_nodes.py` is absent from src. -/
structure DTComment where
  text : String
  is_block : Bool
deriving Repr, DecidableEq

/-- Whether a character list contains the two adjacent characters `*/`. -/
def hasCloseDelim : List Char → Bool
  | [] => false
  | [_] => false
  | a :: b :: rest => (a == '*' && b == '/') || hasCloseDelim (b :: rest)

/-- `hasCloseDelim` finds `*/` exactly when the list splits around it. -/
theorem hasCloseDelim_iff :
    ∀ l : List Char,
      hasCloseDelim l = true ↔ ∃ mid rest, l = mid ++ '*' :: '/' :: rest
  | [] => by
    simp [hasCloseDelim]
  | [a] => by
    constructor
    · intro h
      simp [hasCloseDelim] at h
    · rintro ⟨mid, rest, h⟩
      have := congrArg List.length h
      simp at this
      omega
  | a :: b :: rest => by
    rw [hasCloseDelim]
    constructor
    · intro h
      rcases Bool.or_eq_true_iff.1 h with h1 | h2
      · obtain ⟨ha, hb⟩ := Bool.and_eq_true_iff.1 h1
        exact ⟨[], rest, by simp [beq_iff_eq.1 ha, beq_iff_eq.1 hb]⟩
      · obtain ⟨mid, r, hr⟩ := (hasCloseDelim_iff (b :: rest)).1 h2
        exact ⟨a :: mid, r, by simp [hr]⟩
    · rintro ⟨mid, r, hr⟩
      cases mid with
      | nil =>
        simp only [List.nil_append, List.cons.injEq] at hr
        obtain ⟨ha, hb, -⟩ := hr
        subst ha
        subst hb
        simp
      | cons m ms =>
        simp only [List.cons_append, List.cons.injEq] at hr
        obtain ⟨-, hrest⟩ := hr
        exact Bool.or_eq_true_iff.2
          (Or.inr ((hasCloseDelim_iff (b :: rest)).2 ⟨ms, r, hrest⟩))

/-- The boolean value of the anchored regex match on a character list:
the list starts with `/*` and the remainder contains `*/`. -/
def isBlockMatchL (l : List Char) : Bool :=
  match l with
  | c1 :: c2 :: rest => c1 == '/' && c2 == '*' && hasCloseDelim rest
  | _ => false

/-- `bool(re.match(r"/\*(.|\n)*?\*/", text, re.DOTALL))` on the raw
comment text. -/
def isBlockMatch (s : String) : Bool :=
  isBlockMatchL s.data

/-- Modelled from the spec: the parser builds every `DTComment` with
`is_block` computed by the regex match on the raw text (spec sections 3.2
and 8.1; dt_parser.py line 606 is absent from src). -/
def mkDTComment (text : String) : DTComment :=
  { text := text, is_block := isBlockMatch text }

/-- The declarative content of the anchored DOTALL regex
`/\*(.|\n)*?\*/` as a boolean match: some prefix of the text is an
opening `/*`, any characters, and a closing `*/`. -/
def BlockCommentRe (s : String) : Prop :=
  ∃ mid rest : String, s = "/*" ++ mid ++ "*/" ++ rest

/-- `isBlockMatchL` agrees with the split characterisation. -/
theorem isBlockMatchL_iff (l : List Char) :
    isBlockMatchL l = true ↔
      ∃ mid rest, l = '/' :: '*' :: (mid ++ '*' :: '/' :: rest) := by
  match l with
  | [] =>
    simp [isBlockMatchL]
  | [c] =>
    constructor
    · intro h
      simp [isBlockMatchL] at h
    · rintro ⟨mid, rest, h⟩
      have := congrArg List.length h
      simp at this
  | c1 :: c2 :: rest =>
    rw [isBlockMatchL]
    constructor
    · intro h
      obtain ⟨h12, h3⟩ := Bool.and_eq_true_iff.1 h
      obtain ⟨h1, h2⟩ := Bool.and_eq_true_iff.1 h12
      obtain ⟨mid, r, hr⟩ := (hasCloseDelim_iff rest).1 h3
      exact ⟨mid, r, by simp [beq_iff_eq.1 h1, beq_iff_eq.1 h2, hr]⟩
    · rintro ⟨mid, r, hr⟩
      simp only [List.cons.injEq] at hr
      obtain ⟨h1, h2, h3⟩ := hr
      subst h1
      subst h2
      exact Bool.and_eq_true_iff.2
        ⟨Bool.and_eq_true_iff.2 ⟨beq_self_eq_true _, beq_self_eq_true _⟩,
          (hasCloseDelim_iff rest).2 ⟨mid, r, h3⟩⟩

/-- C9: For every `DTComment` the parser produces, `is_block` is true
exactly when the raw text matches the anchored DOTALL regex
`/\*(.|\n)*?\*/`; comments coming from `//` lines and from preprocessor
`#` lines always have `is_block = false`; and the match behaves as the
test suite demands on `/**/`, on an unterminated `/*`, and on text whose
block comment does not start at position zero. -/
theorem dtcomment_is_block_iff :
    (∀ s : String, (mkDTComment s).is_block = true ↔ BlockCommentRe s) ∧
    (∀ rest : String, (mkDTComment ("//" ++ rest)).is_block = false) ∧
    (∀ rest : String, (mkDTComment ("#" ++ rest)).is_block = false) ∧
    (mkDTComment "/**/").is_block = true ∧
    (mkDTComment "/*").is_block = false ∧
    (mkDTComment "regular text /* with block */ inside").is_block = false := by
  refine ⟨?_, ?_, ?_, by decide, by decide, by decide⟩
  · intro s
    show isBlockMatchL s.data = true ↔ BlockCommentRe s
    rw [isBlockMatchL_iff]
    have hop : ("/*" : String).data = ['/', '*'] := rfl
    have hcl : ("*/" : String).data = ['*', '/'] := rfl
    constructor
    · rintro ⟨mid, rest, h⟩
      refine ⟨⟨mid⟩, ⟨rest⟩, String.ext ?_⟩
      simp [String.data_append, h, hop, hcl, List.append_assoc]
    · rintro ⟨mid, rest, h⟩
      have hd := congrArg String.data h
      simp only [String.data_append, hop, hcl] at hd
      exact ⟨mid.data, rest.data, by simpa [List.append_assoc] using hd⟩
  · intro rest
    show isBlockMatchL (("//" ++ rest).data) = false
    have h : ("//" ++ rest).data = '/' :: '/' :: rest.data := by
      rw [String.data_append]
      rfl
    rw [h, isBlockMatchL]
    rfl
  · intro rest
    show isBlockMatchL (("#" ++ rest).data) = false
    have h : ("#" ++ rest).data = '#' :: rest.data := by
      rw [String.data_append]
      rfl
    rw [h]
    cases hrest : rest.data with
    | nil => rfl
    | cons c t =>
      rfl

/-!
JSON operations (`src/zmk_layout/utils/json_operations.py`).  JSON values
are embedded as a tree; Python's `json.loads`/`json.dumps` are external
library functions and enter the theorems as abstract parameters, while
`LayoutData.model_validate`/`model_dump` (whose pydantic implementation
in `zmk_layout/models/metadata.py` is absent from src) are modelled from
spec sections 4.8 and 6.2.
-/

/-- A JSON value (floats do not occur in the layout document model). -/
inductive Json where
  | null
  | bool (b : Bool)
  | int (n : Int)
  | str (s : String)
  | arr (items : List Json)
  | obj (entries : List (String × Json))
deriving Repr

/-- The module-level flag accessor `should_skip_variable_resolution`
(json_operations.py lines 74-76), with the module state passed
explicitly. -/
def should_skip_variable_resolution (flag : Bool) : Bool := flag

/-- The validation phase of `parse_layout_data` (json_operations.py lines
57-66): save the module flag, set it to `skip`, run
`LayoutData.model_validate` (which reads the flag), and restore the saved
value in the `finally` block whether validation returns or raises; a
raising validation is re-raised as `ValueError`.  Returns the result
paired with the module flag after the call. -/
def parseValidatePhase (validate : Json → Bool → Except String LayoutData)
    (parsed : Json) (skip flag : Bool) :
    Except String LayoutData × Bool :=
  let oldSkipValue := flag
  match validate parsed skip with
  | .ok ld => (.ok ld, oldSkipValue)
  | .error e => (.error ("Invalid layout data: " ++ e), oldSkipValue)

/-- `parse_layout_data` (json_operations.py lines 32-71) with the module
flag passed as explicit state: a string input is decoded by `json.loads`
(the abstract `jloads`; a decode failure re-raises before the flag is
ever written), then validation runs under the `skip` flag and restores
it. -/
def parse_layout_data_stateful
    (jloads : String → Except String Json)
    (validate : Json → Bool → Except String LayoutData)
    (data : String ⊕ Json) (skip flag : Bool) :
    Except String LayoutData × Bool :=
  match data with
  | .inl s =>
    match jloads s with
    | .error e => (.error ("Invalid JSON data: " ++ e), flag)
    | .ok parsed => parseValidatePhase validate parsed skip flag
  | .inr parsed => parseValidatePhase validate parsed skip flag

/-- C10: `parse_layout_data` restores the module-level
variable-resolution flag on every path — any input, any
`skip_variable_resolution` argument, any prior flag state, returning
normally or raising — so `should_skip_variable_resolution()` reads the
same value after the call as before it. -/
theorem parse_layout_data_restores_flag
    (jloads : String → Except String Json)
    (validate : Json → Bool → Except String LayoutData)
    (data : String ⊕ Json) (skip flag : Bool) :
    (parse_layout_data_stateful jloads validate data skip flag).2 = flag ∧
    should_skip_variable_resolution
        (parse_layout_data_stateful jloads validate data skip flag).2 =
      should_skip_variable_resolution flag := by
  have h : (parse_layout_data_stateful jloads validate data skip flag).2 = flag := by
    cases data with
    | inl s =>
      cases hc : jloads s with
      | error e => simp [parse_layout_data_stateful, hc]
      | ok parsed =>
        cases hv : validate parsed skip with
        | ok ld => simp [parse_layout_data_stateful, parseValidatePhase, hc, hv]
        | error e => simp [parse_layout_data_stateful, parseValidatePhase, hc, hv]
    | inr parsed =>
      cases hv : validate parsed skip with
      | ok ld => simp [parse_layout_data_stateful, parseValidatePhase, hv]
      | error e => simp [parse_layout_data_stateful, parseValidatePhase, hv]
  exact ⟨h, by rw [h]⟩

/-- A parameter value as JSON. -/
def paramValueToJson : ParamValue → Json
  | .int n => .int n
  | .str s => .str s

mutual

/-- Modelled from the spec: `LayoutParam.model_dump(mode="json")` — the
object `{value, params}` of spec section 6.2. -/
def paramToJson : LayoutParam → Json
  | .mk v ps => .obj [("value", paramValueToJson v), ("params", .arr (paramsToJson ps))]

/-- Dumps a parameter list elementwise. -/
def paramsToJson : List LayoutParam → List Json
  | [] => []
  | p :: ps => paramToJson p :: paramsToJson ps

end

/-- Modelled from the spec: `LayoutBinding.model_dump(mode="json")` — the
binding object `{value, params}` of spec section 6.2. -/
def bindingToJson (b : LayoutBinding) : Json :=
  .obj [("value", .str b.value), ("params", .arr (paramsToJson b.params))]

/-- One serialized dictionary entry per set optional field, none for an
unset one (pydantic `exclude_unset`). -/
def optEntry (key : String) (v : Option Json) : List (String × Json) :=
  match v with
  | none => []
  | some j => [(key, j)]

/-- A configuration/variable scalar as JSON. -/
def configValueToJson : ConfigValue → Json
  | .str s => .str s
  | .int n => .int n
  | .bool b => .bool b

/-- Modelled from the spec: a hold-tap dumped with camelCase aliases and
unset optionals omitted (spec sections 3.3, 4.8, 6.2). -/
def holdTapToJson (h : HoldTapBehavior) : Json :=
  .obj ([("name", Json.str h.name)] ++
    optEntry "description" (h.description.map .str) ++
    [("bindings", Json.arr (h.bindings.map .str))] ++
    optEntry "tappingTermMs" (h.tapping_term_ms.map .int) ++
    optEntry "quickTapMs" (h.quick_tap_ms.map .int) ++
    optEntry "flavor" (h.flavor.map .str))

/-- Modelled from the spec: a combo dumped with camelCase aliases
(`keyPositions`, `timeoutMs`, `requirePriorIdleMs`) and unset optionals
omitted. -/
def comboToJson (c : ComboBehavior) : Json :=
  .obj ([("name", Json.str c.name),
    ("keyPositions", Json.arr (c.key_positions.map .int)),
    ("binding", bindingToJson c.binding)] ++
    optEntry "timeoutMs" (c.timeout_ms.map .int) ++
    optEntry "layers" (c.layers.map (fun l => Json.arr (l.map .int))) ++
    optEntry "requirePriorIdleMs" (c.require_prior_idle_ms.map .int))

/-- Modelled from the spec: a macro dumped with camelCase aliases and
unset optionals omitted. -/
def macroToJson (m : MacroBehavior) : Json :=
  .obj ([("name", Json.str m.name),
    ("bindings", Json.arr (m.bindings.map bindingToJson))] ++
    optEntry "waitMs" (m.wait_ms.map .int) ++
    optEntry "tapMs" (m.tap_ms.map .int))

/-- Modelled from the spec: a tap-dance dumped with camelCase aliases and
unset optionals omitted. -/
def tapDanceToJson (t : TapDanceBehavior) : Json :=
  .obj ([("name", Json.str t.name),
    ("bindings", Json.arr (t.bindings.map bindingToJson))] ++
    optEntry "tappingTermMs" (t.tapping_term_ms.map .int))

/-- Modelled from the spec: a configuration parameter dumped as a
`{paramName, value}` object. -/
def configParameterToJson (c : ConfigParameter) : Json :=
  .obj [("paramName", Json.str c.name), ("value", configValueToJson c.value)]

/-- Modelled from the spec: the `variables` map dumped as an object. -/
def varsToJson (vs : List (String × ConfigValue)) : Json :=
  .obj (vs.map (fun kv => (kv.1, configValueToJson kv.2)))

/-- Modelled from the spec:
`LayoutData.model_dump(by_alias=True, exclude_unset=True, mode="json")` —
stable key order, camelCase aliases for the multi-word collection fields
(spec section 6.2 keeps `layer_names` itself snake_case on the wire), and
unset optional fields omitted. -/
def serializeLayoutEntries (d : LayoutData) : List (String × Json) :=
  [("keyboard", Json.str d.keyboard)] ++
  optEntry "title" (d.title.map .str) ++
  [("layer_names", Json.arr (d.layer_names.map .str)),
   ("layers", Json.arr (d.layers.map (fun layer =>
     Json.arr (layer.map bindingToJson))))] ++
  optEntry "holdTaps" (d.hold_taps.map (fun l => Json.arr (l.map holdTapToJson))) ++
  optEntry "combos" (d.combos.map (fun l => Json.arr (l.map comboToJson))) ++
  optEntry "macros" (d.macros.map (fun l => Json.arr (l.map macroToJson))) ++
  optEntry "tapDances" (d.tap_dances.map (fun l => Json.arr (l.map tapDanceToJson))) ++
  optEntry "configParameters" (d.config_parameters.map (fun l =>
    Json.arr (l.map configParameterToJson))) ++
  optEntry "customDefinedBehaviors" (d.custom_defined_behaviors.map .str) ++
  optEntry "customDevicetree" (d.custom_devicetree.map .str) ++
  optEntry "variables" (d.varDefs.map varsToJson) ++
  optEntry "creator" (d.creator.map .str) ++
  optEntry "date" (d.date.map .str) ++
  optEntry "uuid" (d.uuid.map .str) ++
  optEntry "tags" (d.tags.map (fun l => Json.arr (l.map .str))) ++
  optEntry "version" (d.version.map .str) ++
  optEntry "notes" (d.notes.map .str)

/-- The dumped layout document as a JSON value. -/
def serializeLayoutDataJson (d : LayoutData) : Json :=
  .obj (serializeLayoutEntries d)

/-- A token of the binding string grammar of spec section 4.3.1. -/
inductive BindingTok where
  | lpar
  | rpar
  | comma
  | atom (s : String)
deriving Repr, DecidableEq

/-- Characters that end an atom in a binding string. -/
def bindingDelim (c : Char) : Bool :=
  c == ' ' || c == '(' || c == ')' || c == ','

/-- Fuel-driven tokenizer for binding strings: spaces separate, the three
punctuation marks stand alone, and maximal runs of other characters form
atoms. -/
def tokenizeBindingAux : Nat → List Char → List BindingTok
  | 0, _ => []
  | _ + 1, [] => []
  | fuel + 1, c :: rest =>
    if c == ' ' then tokenizeBindingAux fuel rest
    else if c == '(' then .lpar :: tokenizeBindingAux fuel rest
    else if c == ')' then .rpar :: tokenizeBindingAux fuel rest
    else if c == ',' then .comma :: tokenizeBindingAux fuel rest
    else
      let atomChars := (c :: rest).takeWhile (fun ch => ! bindingDelim ch)
      .atom ⟨atomChars⟩ :: tokenizeBindingAux fuel ((c :: rest).drop atomChars.length)

/-- Tokenizes a binding string. -/
def tokenizeBinding (s : String) : List BindingTok :=
  tokenizeBindingAux s.length s.data

/-- Digits of an atom as a natural number. -/
def digitsToNat (ds : List Char) : Nat :=
  ds.foldl (fun acc c => acc * 10 + (c.toNat - '0'.toNat)) 0

/-- Numeric atoms become integers, bareword atoms stay strings
(spec section 4.3.1). -/
def atomToParamValue (s : String) : ParamValue :=
  match s.data with
  | '-' :: d :: ds =>
    if (d :: ds).all Char.isDigit then .int (- (digitsToNat (d :: ds) : Int))
    else .str s
  | d :: ds =>
    if (d :: ds).all Char.isDigit then .int (digitsToNat (d :: ds) : Int)
    else .str s
  | [] => .str s

/-- Fuel-driven parser for a sequence of parameter expressions
(spec section 4.3.1): `IDENT ( arglist )` builds a nested parameter,
other atoms are terminal, commas separate, and a closing parenthesis ends
the sequence, which is returned with the unconsumed tokens. -/
def parseParamExprs : Nat → List BindingTok → List LayoutParam × List BindingTok
  | 0, toks => ([], toks)
  | _ + 1, [] => ([], [])
  | _ + 1, .rpar :: rest => ([], .rpar :: rest)
  | fuel + 1, .comma :: rest => parseParamExprs fuel rest
  | fuel + 1, .lpar :: rest => parseParamExprs fuel rest
  | fuel + 1, .atom a :: rest =>
    match rest with
    | .lpar :: rest1 =>
      let argsOut := parseParamExprs fuel rest1
      let rest2 := match argsOut.2 with
        | .rpar :: r => r
        | r => r
      let moreOut := parseParamExprs fuel rest2
      (LayoutParam.mk (atomToParamValue a) argsOut.1 :: moreOut.1, moreOut.2)
    | _ =>
      let moreOut := parseParamExprs fuel rest
      (LayoutParam.mk (atomToParamValue a) [] :: moreOut.1, moreOut.2)

/-- Modelled from the spec: `LayoutBinding.from_str` — splits a binding
string into the leading behavior reference and its parameter expressions
(spec section 4.3.1 and scenario S3); a string with no leading atom
yields the raw-text placeholder binding of the spec's failure mode.
`models/core.py` is absent from src. -/
def LayoutBinding.from_str (s : String) : LayoutBinding :=
  match tokenizeBinding s with
  | .atom v :: rest => { value := v, params := (parseParamExprs s.length rest).1 }
  | _ => { value := s, params := [] }

/-- Looks a key up in a JSON object's entry list (first match). -/
def getField : List (String × Json) → String → Option Json
  | [], _ => none
  | (k, v) :: rest, key => if k = key then some v else getField rest key

/-- Modelled from the spec: pydantic population by alias with
`populate_by_name` — the camelCase wire alias is consulted first, then
the snake_case field name (spec section 4.8). -/
def getAliased (entries : List (String × Json)) (aliasKey fieldName : String) :
    Option Json :=
  match getField entries aliasKey with
  | some j => some j
  | none => getField entries fieldName

/-- Expects a JSON string. -/
def asStr : Json → Except String String
  | .str s => .ok s
  | _ => .error "expected string"

/-- Expects a JSON integer. -/
def asInt : Json → Except String Int
  | .int n => .ok n
  | _ => .error "expected integer"

/-- Expects a JSON array. -/
def asArr : Json → Except String (List Json)
  | .arr items => .ok items
  | _ => .error "expected array"

/-- A required field, looked up under its single key. -/
def reqField (entries : List (String × Json)) (key : String)
    (f : Json → Except String α) : Except String α :=
  match getField entries key with
  | some j => f j
  | none => .error ("missing field " ++ key)

/-- An optional aliased field: absent means unset. -/
def optAliasedField (entries : List (String × Json))
    (aliasKey fieldName : String) (f : Json → Except String α) :
    Except String (Option α) :=
  match getAliased entries aliasKey fieldName with
  | none => .ok none
  | some j => (f j).map some

/-- Parses a list of JSON strings. -/
def parseStrList : List Json → Except String (List String)
  | [] => .ok []
  | j :: js =>
    match asStr j with
    | .ok s =>
      match parseStrList js with
      | .ok ss => .ok (s :: ss)
      | .error e => .error e
    | .error e => .error e

/-- Parses a list of JSON integers. -/
def parseIntList : List Json → Except String (List Int)
  | [] => .ok []
  | j :: js =>
    match asInt j with
    | .ok n =>
      match parseIntList js with
      | .ok ns => .ok (n :: ns)
      | .error e => .error e
    | .error e => .error e

mutual

/-- Modelled from the spec: validating one `LayoutParam` from its JSON
object `{value, params}` (spec section 6.2); the entries are scanned in
order, the first occurrence of each key wins, other keys are ignored. -/
def parseParamJson : Json → Except String LayoutParam
  | .obj entries => parseParamFields entries none none
  | _ => .error "expected parameter object"

/-- Scans the entry list of a parameter object, accumulating the `value`
and `params` fields. -/
def parseParamFields : List (String × Json) → Option ParamValue →
    Option (List LayoutParam) → Except String LayoutParam
  | [], vOpt, psOpt =>
    match vOpt with
    | some v => .ok (.mk v (psOpt.getD []))
    | none => .error "missing field value"
  | (k, j) :: rest, vOpt, psOpt =>
    if k = "value" then
      match vOpt with
      | some _ => parseParamFields rest vOpt psOpt
      | none =>
        match j with
        | .int n => parseParamFields rest (some (.int n)) psOpt
        | .str s => parseParamFields rest (some (.str s)) psOpt
        | _ => .error "expected scalar parameter value"
    else if k = "params" then
      match psOpt with
      | some _ => parseParamFields rest vOpt psOpt
      | none =>
        match j with
        | .arr items =>
          match parseParamListJson items with
          | .ok ps => parseParamFields rest vOpt (some ps)
          | .error e => .error e
        | _ => .error "expected parameter array"
    else parseParamFields rest vOpt psOpt

/-- Validates a list of parameter objects. -/
def parseParamListJson : List Json → Except String (List LayoutParam)
  | [] => .ok []
  | j :: js =>
    match parseParamJson j with
    | .ok p =>
      match parseParamListJson js with
      | .ok ps => .ok (p :: ps)
      | .error e => .error e
    | .error e => .error e

end

/-- Modelled from the spec: validating one `LayoutBinding` — either a
binding string handed to `from_str` or an object `{value, params}`
(spec section 6.2; a missing `params` key means the empty default). -/
def parseBindingJson : Json → Except String LayoutBinding
  | .str s => .ok (LayoutBinding.from_str s)
  | .obj entries =>
    match getField entries "value" with
    | some (.str v) =>
      match getField entries "params" with
      | none => .ok { value := v, params := [] }
      | some (.arr items) =>
        match parseParamListJson items with
        | .ok ps => .ok { value := v, params := ps }
        | .error e => .error e
      | some _ => .error "expected parameter array"
    | _ => .error "expected binding value"
  | _ => .error "expected binding"

/-- Validates a list of bindings. -/
def parseBindingList : List Json → Except String (List LayoutBinding)
  | [] => .ok []
  | j :: js =>
    match parseBindingJson j with
    | .ok b =>
      match parseBindingList js with
      | .ok bs => .ok (b :: bs)
      | .error e => .error e
    | .error e => .error e

/-- Validates the `layers` array: one binding list per layer. -/
def parseLayerList : List Json → Except String (List (List LayoutBinding))
  | [] => .ok []
  | j :: js =>
    match asArr j with
    | .ok items =>
      match parseBindingList items with
      | .ok layer =>
        match parseLayerList js with
        | .ok layers => .ok (layer :: layers)
        | .error e => .error e
      | .error e => .error e
    | .error e => .error e

/-- Expects an array of strings. -/
def asStrList (j : Json) : Except String (List String) :=
  match j with
  | .arr items => parseStrList items
  | _ => .error "expected array"

/-- Expects an array of integers. -/
def asIntList (j : Json) : Except String (List Int) :=
  match j with
  | .arr items => parseIntList items
  | _ => .error "expected array"

/-- Expects an array of layers. -/
def asLayerList (j : Json) : Except String (List (List LayoutBinding)) :=
  match j with
  | .arr items => parseLayerList items
  | _ => .error "expected array"

/-- Expects a scalar configuration value. -/
def asConfigValue : Json → Except String ConfigValue
  | .str s => .ok (.str s)
  | .int n => .ok (.int n)
  | .bool b => .ok (.bool b)
  | _ => .error "expected scalar"

/-- A required aliased field. -/
def reqAliasedField (entries : List (String × Json))
    (aliasKey fieldName : String) (f : Json → Except String α) :
    Except String α :=
  match getAliased entries aliasKey fieldName with
  | some j => f j
  | none => .error ("missing field " ++ fieldName)

/-- Modelled from the spec: validating one hold-tap record with aliases
(spec sections 3.3 and 4.8). -/
def parseHoldTapJson : Json → Except String HoldTapBehavior
  | .obj entries => do
    let name ← reqField entries "name" asStr
    let description ← optAliasedField entries "description" "description" asStr
    let bindings ← reqField entries "bindings" asStrList
    let tapping ← optAliasedField entries "tappingTermMs" "tapping_term_ms" asInt
    let quick ← optAliasedField entries "quickTapMs" "quick_tap_ms" asInt
    let flavor ← optAliasedField entries "flavor" "flavor" asStr
    pure ⟨name, description, bindings, tapping, quick, flavor⟩
  | _ => .error "expected hold-tap object"

/-- Validates a list of hold-taps. -/
def parseHoldTapList : List Json → Except String (List HoldTapBehavior)
  | [] => .ok []
  | j :: js =>
    match parseHoldTapJson j with
    | .ok h =>
      match parseHoldTapList js with
      | .ok hs => .ok (h :: hs)
      | .error e => .error e
    | .error e => .error e

/-- Modelled from the spec: validating one combo record with aliases. -/
def parseComboJson : Json → Except String ComboBehavior
  | .obj entries => do
    let name ← reqField entries "name" asStr
    let keyPositions ← reqAliasedField entries "keyPositions" "key_positions" asIntList
    let binding ← reqField entries "binding" parseBindingJson
    let timeout ← optAliasedField entries "timeoutMs" "timeout_ms" asInt
    let layers ← optAliasedField entries "layers" "layers" asIntList
    let rpi ← optAliasedField entries "requirePriorIdleMs" "require_prior_idle_ms" asInt
    pure ⟨name, keyPositions, binding, timeout, layers, rpi⟩
  | _ => .error "expected combo object"

/-- Validates a list of combos. -/
def parseComboList : List Json → Except String (List ComboBehavior)
  | [] => .ok []
  | j :: js =>
    match parseComboJson j with
    | .ok c =>
      match parseComboList js with
      | .ok cs => .ok (c :: cs)
      | .error e => .error e
    | .error e => .error e

/-- Expects an array of bindings. -/
def asBindingList (j : Json) : Except String (List LayoutBinding) :=
  match j with
  | .arr items => parseBindingList items
  | _ => .error "expected array"

/-- Modelled from the spec: validating one macro record with aliases. -/
def parseMacroJson : Json → Except String MacroBehavior
  | .obj entries => do
    let name ← reqField entries "name" asStr
    let bindings ← reqField entries "bindings" asBindingList
    let wait ← optAliasedField entries "waitMs" "wait_ms" asInt
    let tap ← optAliasedField entries "tapMs" "tap_ms" asInt
    pure ⟨name, bindings, wait, tap⟩
  | _ => .error "expected macro object"

/-- Validates a list of macros. -/
def parseMacroList : List Json → Except String (List MacroBehavior)
  | [] => .ok []
  | j :: js =>
    match parseMacroJson j with
    | .ok m =>
      match parseMacroList js with
      | .ok ms => .ok (m :: ms)
      | .error e => .error e
    | .error e => .error e

/-- Modelled from the spec: validating one tap-dance record with
aliases. -/
def parseTapDanceJson : Json → Except String TapDanceBehavior
  | .obj entries => do
    let name ← reqField entries "name" asStr
    let bindings ← reqField entries "bindings" asBindingList
    let tapping ← optAliasedField entries "tappingTermMs" "tapping_term_ms" asInt
    pure ⟨name, bindings, tapping⟩
  | _ => .error "expected tap-dance object"

/-- Validates a list of tap-dances. -/
def parseTapDanceList : List Json → Except String (List TapDanceBehavior)
  | [] => .ok []
  | j :: js =>
    match parseTapDanceJson j with
    | .ok t =>
      match parseTapDanceList js with
      | .ok ts => .ok (t :: ts)
      | .error e => .error e
    | .error e => .error e

/-- Modelled from the spec: validating one configuration parameter. -/
def parseConfigParameterJson : Json → Except String ConfigParameter
  | .obj entries => do
    let name ← reqAliasedField entries "paramName" "name" asStr
    let value ← reqField entries "value" asConfigValue
    pure ⟨name, value⟩
  | _ => .error "expected configuration parameter object"

/-- Validates a list of configuration parameters. -/
def parseConfigParameterList : List Json → Except String (List ConfigParameter)
  | [] => .ok []
  | j :: js =>
    match parseConfigParameterJson j with
    | .ok c =>
      match parseConfigParameterList js with
      | .ok cs => .ok (c :: cs)
      | .error e => .error e
    | .error e => .error e

/-- Validates the entries of the `variables` object. -/
def parseVarEntries : List (String × Json) →
    Except String (List (String × ConfigValue))
  | [] => .ok []
  | (k, j) :: rest =>
    match asConfigValue j with
    | .ok v =>
      match parseVarEntries rest with
      | .ok vs => .ok ((k, v) :: vs)
      | .error e => .error e
    | .error e => .error e

/-- Expects the `variables` map object. -/
def asVarMap (j : Json) : Except String (List (String × ConfigValue)) :=
  match j with
  | .obj entries => parseVarEntries entries
  | _ => .error "expected object"

/-- Wrapper for an array of hold-taps. -/
def asHoldTapList (j : Json) : Except String (List HoldTapBehavior) :=
  match j with
  | .arr items => parseHoldTapList items
  | _ => .error "expected array"

/-- Wrapper for an array of combos. -/
def asComboList (j : Json) : Except String (List ComboBehavior) :=
  match j with
  | .arr items => parseComboList items
  | _ => .error "expected array"

/-- Wrapper for an array of macros. -/
def asMacroList (j : Json) : Except String (List MacroBehavior) :=
  match j with
  | .arr items => parseMacroList items
  | _ => .error "expected array"

/-- Wrapper for an array of tap-dances. -/
def asTapDanceList (j : Json) : Except String (List TapDanceBehavior) :=
  match j with
  | .arr items => parseTapDanceList items
  | _ => .error "expected array"

/-- Wrapper for an array of configuration parameters. -/
def asConfigParameterList (j : Json) : Except String (List ConfigParameter) :=
  match j with
  | .arr items => parseConfigParameterList items
  | _ => .error "expected array"

/-- Modelled from the spec: `LayoutData.model_validate` — schema
validation of the layout document with field aliasing (spec sections 4.8
and 6.2).  Variable substitution is not modelled (its implementation in
`models/metadata.py` is absent from src); validation is independent of
the skip flag. -/
def parseLayoutDataJson : Json → Except String LayoutData
  | .obj entries => do
    let keyboard ← reqField entries "keyboard" asStr
    let title ← optAliasedField entries "title" "title" asStr
    let layerNames ← reqAliasedField entries "layer_names" "layer_names" asStrList
    let layers ← reqAliasedField entries "layers" "layers" asLayerList
    let holdTaps ← optAliasedField entries "holdTaps" "hold_taps" asHoldTapList
    let combos ← optAliasedField entries "combos" "combos" asComboList
    let macros ← optAliasedField entries "macros" "macros" asMacroList
    let tapDances ← optAliasedField entries "tapDances" "tap_dances" asTapDanceList
    let configParameters ←
      optAliasedField entries "configParameters" "config_parameters"
        asConfigParameterList
    let cdb ←
      optAliasedField entries "customDefinedBehaviors"
        "custom_defined_behaviors" asStr
    let cdt ← optAliasedField entries "customDevicetree" "custom_devicetree" asStr
    let vars ← optAliasedField entries "variables" "variables" asVarMap
    let creator ← optAliasedField entries "creator" "creator" asStr
    let date ← optAliasedField entries "date" "date" asStr
    let uuid ← optAliasedField entries "uuid" "uuid" asStr
    let tags ← optAliasedField entries "tags" "tags" asStrList
    let version ← optAliasedField entries "version" "version" asStr
    let notes ← optAliasedField entries "notes" "notes" asStr
    pure ⟨keyboard, title, layerNames, layers, holdTaps, combos, macros,
      tapDances, configParameters, cdb, cdt, vars, creator, date, uuid,
      tags, version, notes⟩
  | _ => .error "layout data must be an object"

/-- Binding a successful `Except` computation applies the continuation. -/
@[simp] theorem except_bind_ok (a : α) (f : α → Except String β) :
    (Except.ok a >>= f) = f a := rfl

/-- First-wins choice of two optional JSON values, the shape of an
aliased field lookup. -/
def optOr (a b : Option Json) : Option Json :=
  match a with
  | some j => some j
  | none => b

@[simp] theorem optOr_some (j : Json) (b : Option Json) :
    optOr (some j) b = some j := rfl

@[simp] theorem optOr_none (b : Option Json) : optOr none b = b := rfl

/-- Mapped-option against `none` collapses to the mapped option. -/
@[simp] theorem optOr_map_none (o : Option α) (f : α → Json) :
    optOr (o.map f) none = o.map f := by
  cases o <;> rfl

/-- Idempotence of the aliased lookup when both keys resolve alike. -/
@[simp] theorem optOr_self (a : Option Json) : optOr a a = a := by
  cases a <;> rfl

/-- `getAliased` is the first-wins choice of the two lookups. -/
theorem getAliased_eq (entries : List (String × Json)) (aliasKey fieldName : String) :
    getAliased entries aliasKey fieldName =
      optOr (getField entries aliasKey) (getField entries fieldName) := by
  unfold getAliased optOr
  cases getField entries aliasKey <;> rfl

@[simp] theorem getField_nil (k : String) : getField [] k = none := rfl

@[simp] theorem getField_cons (k' : String) (j : Json)
    (rest : List (String × Json)) (k : String) :
    getField ((k', j) :: rest) k = if k' = k then some j else getField rest k := rfl

/-- Looking a key up across an optional leading entry. -/
@[simp] theorem getField_optEntry_append (key : String) (v : Option Json)
    (rest : List (String × Json)) (k : String) :
    getField (optEntry key v ++ rest) k =
      if key = k then optOr v (getField rest k) else getField rest k := by
  cases v with
  | none =>
    by_cases h : key = k <;> simp [optEntry, h]
  | some j =>
    by_cases h : key = k <;> simp [optEntry, h]

/-- Looking a key up in a lone optional entry. -/
@[simp] theorem getField_optEntry (key : String) (v : Option Json) (k : String) :
    getField (optEntry key v) k = if key = k then v else none := by
  cases v with
  | none => by_cases h : key = k <;> simp [optEntry, h]
  | some j => by_cases h : key = k <;> simp [optEntry, h]

mutual

/-- Parameter JSON round-trip: validating a dumped parameter restores
it. -/
theorem parseParamJson_round :
    ∀ p : LayoutParam, parseParamJson (paramToJson p) = .ok p
  | .mk v ps => by
    have hps := parseParamListJson_round ps
    cases v with
    | int n =>
      simp [paramToJson, paramValueToJson, parseParamJson, parseParamFields, hps]
    | str s =>
      simp [paramToJson, paramValueToJson, parseParamJson, parseParamFields, hps]

/-- Parameter-list JSON round-trip. -/
theorem parseParamListJson_round :
    ∀ ps : List LayoutParam, parseParamListJson (paramsToJson ps) = .ok ps
  | [] => rfl
  | p :: ps => by
    have hp := parseParamJson_round p
    have hps := parseParamListJson_round ps
    simp [paramsToJson, parseParamListJson, hp, hps]

end

/-- Binding JSON round-trip. -/
theorem parseBindingJson_round (b : LayoutBinding) :
    parseBindingJson (bindingToJson b) = .ok b := by
  obtain ⟨v, ps⟩ := b
  simp [bindingToJson, parseBindingJson, parseParamListJson_round ps]

/-- Binding-list JSON round-trip. -/
theorem parseBindingList_round (bs : List LayoutBinding) :
    parseBindingList (bs.map bindingToJson) = .ok bs := by
  induction bs with
  | nil => rfl
  | cons b bs ih =>
    simp [parseBindingList, parseBindingJson_round b, ih]

/-- Layer-list JSON round-trip. -/
theorem parseLayerList_round (ls : List (List LayoutBinding)) :
    parseLayerList (ls.map (fun layer => Json.arr (layer.map bindingToJson))) =
      .ok ls := by
  induction ls with
  | nil => rfl
  | cons l ls ih =>
    simp [parseLayerList, asArr, parseBindingList_round l, ih]

/-- String-list JSON round-trip. -/
theorem parseStrList_round (ss : List String) :
    parseStrList (ss.map Json.str) = .ok ss := by
  induction ss with
  | nil => rfl
  | cons s ss ih =>
    simp [parseStrList, asStr, ih]

/-- Integer-list JSON round-trip. -/
theorem parseIntList_round (ns : List Int) :
    parseIntList (ns.map Json.int) = .ok ns := by
  induction ns with
  | nil => rfl
  | cons n ns ih =>
    simp [parseIntList, asInt, ih]

/-- Mapping over a successful `Except` computation. -/
@[simp] theorem except_map_ok (f : α → β) (a : α) :
    Except.map f (Except.ok a : Except String α) = Except.ok (f a) := rfl

/-- Functor mapping over a successful `Except` computation. -/
@[simp] theorem except_fmap_ok (f : α → β) (a : α) :
    (f <$> (Except.ok a : Except String α)) = Except.ok (f a) := rfl

/-- Scalar configuration values round-trip. -/
@[simp] theorem asConfigValue_round (v : ConfigValue) :
    asConfigValue (configValueToJson v) = .ok v := by
  cases v <;> rfl

/-- Hold-tap JSON round-trip. -/
theorem parseHoldTapJson_round (h : HoldTapBehavior) :
    parseHoldTapJson (holdTapToJson h) = .ok h := by
  obtain ⟨name, desc, binds, ttm, qtm, flavor⟩ := h
  cases desc <;> cases ttm <;> cases qtm <;> cases flavor <;>
    simp [holdTapToJson, parseHoldTapJson, reqField, optAliasedField,
      getAliased_eq, optEntry, asStr, asStrList, parseStrList_round, asInt]

/-- Hold-tap list JSON round-trip. -/
theorem parseHoldTapList_round (hs : List HoldTapBehavior) :
    parseHoldTapList (hs.map holdTapToJson) = .ok hs := by
  induction hs with
  | nil => rfl
  | cons h hs ih =>
    simp [parseHoldTapList, parseHoldTapJson_round h, ih]

/-- Combo JSON round-trip. -/
theorem parseComboJson_round (c : ComboBehavior) :
    parseComboJson (comboToJson c) = .ok c := by
  obtain ⟨name, kps, binding, timeout, layers, rpi⟩ := c
  cases timeout <;> cases layers <;> cases rpi <;>
    simp [comboToJson, parseComboJson, reqField, reqAliasedField,
      optAliasedField, getAliased_eq, optEntry, asStr, asIntList,
      parseIntList_round, asInt, parseBindingJson_round]

/-- Combo list JSON round-trip. -/
theorem parseComboList_round (cs : List ComboBehavior) :
    parseComboList (cs.map comboToJson) = .ok cs := by
  induction cs with
  | nil => rfl
  | cons c cs ih =>
    simp [parseComboList, parseComboJson_round c, ih]

/-- Macro JSON round-trip. -/
theorem parseMacroJson_round (m : MacroBehavior) :
    parseMacroJson (macroToJson m) = .ok m := by
  obtain ⟨name, binds, wait, tap⟩ := m
  cases wait <;> cases tap <;>
    simp [macroToJson, parseMacroJson, reqField, optAliasedField,
      getAliased_eq, optEntry, asStr, asBindingList, parseBindingList_round,
      asInt]

/-- Macro list JSON round-trip. -/
theorem parseMacroList_round (ms : List MacroBehavior) :
    parseMacroList (ms.map macroToJson) = .ok ms := by
  induction ms with
  | nil => rfl
  | cons m ms ih =>
    simp [parseMacroList, parseMacroJson_round m, ih]

/-- Tap-dance JSON round-trip. -/
theorem parseTapDanceJson_round (t : TapDanceBehavior) :
    parseTapDanceJson (tapDanceToJson t) = .ok t := by
  obtain ⟨name, binds, ttm⟩ := t
  cases ttm <;>
    simp [tapDanceToJson, parseTapDanceJson, reqField, optAliasedField,
      getAliased_eq, optEntry, asStr, asBindingList, parseBindingList_round,
      asInt]

/-- Tap-dance list JSON round-trip. -/
theorem parseTapDanceList_round (ts : List TapDanceBehavior) :
    parseTapDanceList (ts.map tapDanceToJson) = .ok ts := by
  induction ts with
  | nil => rfl
  | cons t ts ih =>
    simp [parseTapDanceList, parseTapDanceJson_round t, ih]

/-- Configuration-parameter JSON round-trip. -/
theorem parseConfigParameterJson_round (c : ConfigParameter) :
    parseConfigParameterJson (configParameterToJson c) = .ok c := by
  obtain ⟨name, value⟩ := c
  simp [configParameterToJson, parseConfigParameterJson, reqField,
    reqAliasedField, getAliased_eq, asStr]

/-- Configuration-parameter list JSON round-trip. -/
theorem parseConfigParameterList_round (cs : List ConfigParameter) :
    parseConfigParameterList (cs.map configParameterToJson) = .ok cs := by
  induction cs with
  | nil => rfl
  | cons c cs ih =>
    simp [parseConfigParameterList, parseConfigParameterJson_round c, ih]

/-- Variables-map JSON round-trip. -/
theorem parseVarEntries_round (vs : List (String × ConfigValue)) :
    parseVarEntries (vs.map (fun kv => (kv.1, configValueToJson kv.2))) =
      .ok vs := by
  induction vs with
  | nil => rfl
  | cons kv vs ih =>
    obtain ⟨k, v⟩ := kv
    simp [parseVarEntries, ih]

/-- Evaluates a required field from a computed lookup. -/
theorem reqField_eval {e : List (String × Json)} {k : String} {j : Json}
    {g : Json → Except String α} {v : α}
    (h1 : getField e k = some j) (h2 : g j = .ok v) :
    reqField e k g = .ok v := by
  simp [reqField, h1, h2]

/-- Evaluates a required aliased field from a computed lookup. -/
theorem reqAliasedField_eval {e : List (String × Json)} {a f : String}
    {j : Json} {g : Json → Except String α} {v : α}
    (h1 : getAliased e a f = some j) (h2 : g j = .ok v) :
    reqAliasedField e a f g = .ok v := by
  simp [reqAliasedField, h1, h2]

/-- Evaluates an optional string field from a computed lookup. -/
theorem optAliasedField_str {e : List (String × Json)} {a f : String}
    {o : Option String} (h : getAliased e a f = o.map Json.str) :
    optAliasedField e a f asStr = .ok o := by
  cases o <;> simp [optAliasedField, h, asStr]

/-- Evaluates an optional string-list field from a computed lookup. -/
theorem optAliasedField_strList {e : List (String × Json)} {a f : String}
    {o : Option (List String)}
    (h : getAliased e a f = o.map (fun l => Json.arr (l.map Json.str))) :
    optAliasedField e a f asStrList = .ok o := by
  cases o <;> simp [optAliasedField, h, asStrList, parseStrList_round]

/-- Evaluates an optional hold-tap list field from a computed lookup. -/
theorem optAliasedField_holdTaps {e : List (String × Json)} {a f : String}
    {o : Option (List HoldTapBehavior)}
    (h : getAliased e a f = o.map (fun l => Json.arr (l.map holdTapToJson))) :
    optAliasedField e a f asHoldTapList = .ok o := by
  cases o <;> simp [optAliasedField, h, asHoldTapList, parseHoldTapList_round]

/-- Evaluates an optional combo list field from a computed lookup. -/
theorem optAliasedField_combos {e : List (String × Json)} {a f : String}
    {o : Option (List ComboBehavior)}
    (h : getAliased e a f = o.map (fun l => Json.arr (l.map comboToJson))) :
    optAliasedField e a f asComboList = .ok o := by
  cases o <;> simp [optAliasedField, h, asComboList, parseComboList_round]

/-- Evaluates an optional macro list field from a computed lookup. -/
theorem optAliasedField_macros {e : List (String × Json)} {a f : String}
    {o : Option (List MacroBehavior)}
    (h : getAliased e a f = o.map (fun l => Json.arr (l.map macroToJson))) :
    optAliasedField e a f asMacroList = .ok o := by
  cases o <;> simp [optAliasedField, h, asMacroList, parseMacroList_round]

/-- Evaluates an optional tap-dance list field from a computed lookup. -/
theorem optAliasedField_tapDances {e : List (String × Json)} {a f : String}
    {o : Option (List TapDanceBehavior)}
    (h : getAliased e a f = o.map (fun l => Json.arr (l.map tapDanceToJson))) :
    optAliasedField e a f asTapDanceList = .ok o := by
  cases o <;> simp [optAliasedField, h, asTapDanceList, parseTapDanceList_round]

/-- Evaluates an optional configuration-parameter list field from a
computed lookup. -/
theorem optAliasedField_configParams {e : List (String × Json)} {a f : String}
    {o : Option (List ConfigParameter)}
    (h : getAliased e a f =
      o.map (fun l => Json.arr (l.map configParameterToJson))) :
    optAliasedField e a f asConfigParameterList = .ok o := by
  cases o <;>
    simp [optAliasedField, h, asConfigParameterList, parseConfigParameterList_round]

/-- Evaluates an optional variables-map field from a computed lookup. -/
theorem optAliasedField_vars {e : List (String × Json)} {a f : String}
    {o : Option (List (String × ConfigValue))}
    (h : getAliased e a f = o.map varsToJson) :
    optAliasedField e a f asVarMap = .ok o := by
  cases o <;> simp [optAliasedField, h, asVarMap, varsToJson, parseVarEntries_round]

/-- Modelled round-trip of the layout document through its JSON value:
validating the aliased, `exclude_unset` dump restores the document. -/
theorem parseLayoutDataJson_round (d : LayoutData) :
    parseLayoutDataJson (serializeLayoutDataJson d) = .ok d := by
  have h01 : reqField (serializeLayoutEntries d) "keyboard" asStr = .ok d.keyboard :=
    reqField_eval (j := Json.str d.keyboard) (by simp [serializeLayoutEntries]) rfl
  have h02 : optAliasedField (serializeLayoutEntries d) "title" "title" asStr =
      .ok d.title :=
    optAliasedField_str (by simp [serializeLayoutEntries, getAliased_eq])
  have h03 : reqAliasedField (serializeLayoutEntries d) "layer_names"
      "layer_names" asStrList = .ok d.layer_names :=
    reqAliasedField_eval (j := Json.arr (d.layer_names.map Json.str))
      (by simp [serializeLayoutEntries, getAliased_eq])
      (by simp [asStrList, parseStrList_round])
  have h04 : reqAliasedField (serializeLayoutEntries d) "layers" "layers"
      asLayerList = .ok d.layers :=
    reqAliasedField_eval
      (j := Json.arr (d.layers.map (fun layer => Json.arr (layer.map bindingToJson))))
      (by simp [serializeLayoutEntries, getAliased_eq])
      (by simp [asLayerList, parseLayerList_round])
  have h05 : optAliasedField (serializeLayoutEntries d) "holdTaps" "hold_taps"
      asHoldTapList = .ok d.hold_taps :=
    optAliasedField_holdTaps (by simp [serializeLayoutEntries, getAliased_eq])
  have h06 : optAliasedField (serializeLayoutEntries d) "combos" "combos"
      asComboList = .ok d.combos :=
    optAliasedField_combos (by simp [serializeLayoutEntries, getAliased_eq])
  have h07 : optAliasedField (serializeLayoutEntries d) "macros" "macros"
      asMacroList = .ok d.macros :=
    optAliasedField_macros (by simp [serializeLayoutEntries, getAliased_eq])
  have h08 : optAliasedField (serializeLayoutEntries d) "tapDances" "tap_dances"
      asTapDanceList = .ok d.tap_dances :=
    optAliasedField_tapDances (by simp [serializeLayoutEntries, getAliased_eq])
  have h09 : optAliasedField (serializeLayoutEntries d) "configParameters"
      "config_parameters" asConfigParameterList = .ok d.config_parameters :=
    optAliasedField_configParams (by simp [serializeLayoutEntries, getAliased_eq])
  have h10 : optAliasedField (serializeLayoutEntries d) "customDefinedBehaviors"
      "custom_defined_behaviors" asStr = .ok d.custom_defined_behaviors :=
    optAliasedField_str (by simp [serializeLayoutEntries, getAliased_eq])
  have h11 : optAliasedField (serializeLayoutEntries d) "customDevicetree"
      "custom_devicetree" asStr = .ok d.custom_devicetree :=
    optAliasedField_str (by simp [serializeLayoutEntries, getAliased_eq])
  have h12 : optAliasedField (serializeLayoutEntries d) "variables" "variables"
      asVarMap = .ok d.varDefs :=
    optAliasedField_vars (by simp [serializeLayoutEntries, getAliased_eq])
  have h13 : optAliasedField (serializeLayoutEntries d) "creator" "creator"
      asStr = .ok d.creator :=
    optAliasedField_str (by simp [serializeLayoutEntries, getAliased_eq])
  have h14 : optAliasedField (serializeLayoutEntries d) "date" "date" asStr =
      .ok d.date :=
    optAliasedField_str (by simp [serializeLayoutEntries, getAliased_eq])
  have h15 : optAliasedField (serializeLayoutEntries d) "uuid" "uuid" asStr =
      .ok d.uuid :=
    optAliasedField_str (by simp [serializeLayoutEntries, getAliased_eq])
  have h16 : optAliasedField (serializeLayoutEntries d) "tags" "tags"
      asStrList = .ok d.tags :=
    optAliasedField_strList (by simp [serializeLayoutEntries, getAliased_eq])
  have h17 : optAliasedField (serializeLayoutEntries d) "version" "version"
      asStr = .ok d.version :=
    optAliasedField_str (by simp [serializeLayoutEntries, getAliased_eq])
  have h18 : optAliasedField (serializeLayoutEntries d) "notes" "notes" asStr =
      .ok d.notes :=
    optAliasedField_str (by simp [serializeLayoutEntries, getAliased_eq])
  simp only [serializeLayoutDataJson, parseLayoutDataJson, h01, h02, h03, h04,
    h05, h06, h07, h08, h09, h10, h11, h12, h13, h14, h15, h16, h17, h18,
    except_bind_ok]
  rfl

/-- `serialize_layout_data` (json_operations.py lines 79-98):
`json.dumps` — the abstract `jdumps` — applied to
`model_dump(by_alias=True, exclude_unset=True, mode="json")`.  The
surrounding `VariableResolutionContext(skip=True)` saves and restores the
module flag and is invisible in the result. -/
def serialize_layout_data (jdumps : Json → String) (d : LayoutData) : String :=
  jdumps (serializeLayoutDataJson d)

/-- `parse_layout_data` on a string input with the default
`skip_variable_resolution=False` and a clear module flag, specialised to
the modelled validator (the result component of the stateful embedding). -/
def parse_layout_data (jloads : String → Except String Json) (s : String) :
    Except String LayoutData :=
  (parse_layout_data_stateful jloads (fun j _ => parseLayoutDataJson j)
    (.inl s) false false).1

/-- C1: For every layout document `d`, serializing and parsing it back
restores an equal document — `parse_layout_data(serialize_layout_data(d))
== d` — where serialization emits the camelCase alias keys and omits
unset optional fields.  The JSON text codec is Python's `json` standard
library, an external collaborator: it enters as the abstract pair
`jdumps`/`jloads` together with its documented contract at the emitted
value (`loads` inverts `dumps`). -/
theorem json_round_trip (jdumps : Json → String)
    (jloads : String → Except String Json) (d : LayoutData)
    (hcodec : jloads (jdumps (serializeLayoutDataJson d)) =
      .ok (serializeLayoutDataJson d)) :
    parse_layout_data jloads (serialize_layout_data jdumps d) = .ok d := by
  simp [parse_layout_data, serialize_layout_data, parse_layout_data_stateful,
    parseValidatePhase, hcodec, parseLayoutDataJson_round]

/-- Escapes one character for a JSON string literal. -/
def escapeChar (c : Char) : List Char :=
  if c = '"' then ['\\', '"']
  else if c = '\\' then ['\\', '\\']
  else if c = '\n' then ['\\', 'n']
  else if c = '\t' then ['\\', 't']
  else if c = '\r' then ['\\', 'r']
  else [c]

/-- A quoted, escaped JSON string literal. -/
def escapeString (s : String) : List Char :=
  '"' :: s.data.flatMap escapeChar ++ ['"']

mutual

/-- A compact JSON printer (an executable stand-in for `json.dumps`,
used to instantiate the codec in the round-trip witness). -/
def dumpJson : Json → List Char
  | .null => "null".data
  | .bool true => "true".data
  | .bool false => "false".data
  | .int n => (toString n).data
  | .str s => escapeString s
  | .arr items => '[' :: dumpJsonList items ++ [']']
  | .obj entries => '\x7b' :: dumpJsonObj entries ++ ['\x7d']

/-- Prints array elements, comma separated. -/
def dumpJsonList : List Json → List Char
  | [] => []
  | [j] => dumpJson j
  | j :: rest => dumpJson j ++ ',' :: dumpJsonList rest

/-- Prints object entries, comma separated. -/
def dumpJsonObj : List (String × Json) → List Char
  | [] => []
  | [(k, v)] => escapeString k ++ ':' :: dumpJson v
  | (k, v) :: rest => escapeString k ++ ':' :: dumpJson v ++ ',' :: dumpJsonObj rest

end

/-- The printed JSON text. -/
def jsonDumps (j : Json) : String :=
  ⟨dumpJson j⟩

/-- Skips JSON whitespace. -/
def skipWsJ : List Char → List Char
  | [] => []
  | c :: cs =>
    if c = ' ' ∨ c = '\n' ∨ c = '\t' ∨ c = '\r' then skipWsJ cs else c :: cs

/-- Reads a JSON string body up to the closing quote, undoing the
escapes the printer emits. -/
def parseStringBody : Nat → List Char → Option (List Char × List Char)
  | 0, _ => none
  | _ + 1, [] => none
  | fuel + 1, c :: cs =>
    if c = '"' then some ([], cs)
    else if c = '\\' then
      match cs with
      | [] => none
      | e :: cs1 =>
        let decoded :=
          if e = 'n' then '\n' else if e = 't' then '\t'
          else if e = 'r' then '\r' else e
        match parseStringBody fuel cs1 with
        | some (content, rest) => some (decoded :: content, rest)
        | none => none
    else
      match parseStringBody fuel cs with
      | some (content, rest) => some (c :: content, rest)
      | none => none

mutual

/-- A fuel-driven JSON reader (an executable stand-in for `json.loads`,
used to instantiate the codec in the round-trip witness). -/
def parseJsonValue : Nat → List Char → Option (Json × List Char)
  | 0, _ => none
  | fuel + 1, cs =>
    match skipWsJ cs with
    | [] => none
    | c :: rest =>
      if c = '"' then
        match parseStringBody fuel rest with
        | some (content, r) => some (.str ⟨content⟩, r)
        | none => none
      else if c = '[' then parseArrItems fuel rest
      else if c = '\x7b' then parseObjItems fuel rest
      else if c = 't' then
        match rest with
        | 'r' :: 'u' :: 'e' :: r => some (.bool true, r)
        | _ => none
      else if c = 'f' then
        match rest with
        | 'a' :: 'l' :: 's' :: 'e' :: r => some (.bool false, r)
        | _ => none
      else if c = 'n' then
        match rest with
        | 'u' :: 'l' :: 'l' :: r => some (.null, r)
        | _ => none
      else if c = '-' then
        let ds := rest.takeWhile Char.isDigit
        if ds.isEmpty then none
        else some (.int (-(digitsToNat ds : Int)), rest.drop ds.length)
      else if c.isDigit then
        let ds := (c :: rest).takeWhile Char.isDigit
        some (.int (digitsToNat ds : Int), (c :: rest).drop ds.length)
      else none

/-- Reads the items of an array after its opening bracket. -/
def parseArrItems (fuel : Nat) (cs : List Char) : Option (Json × List Char) :=
  match fuel with
  | 0 => none
  | fuel + 1 =>
    match skipWsJ cs with
    | ']' :: r => some (.arr [], r)
    | cs1 =>
      match parseArrRest fuel cs1 with
      | some (items, r) => some (.arr items, r)
      | none => none

/-- Reads one array item and the comma-separated continuation. -/
def parseArrRest (fuel : Nat) (cs : List Char) :
    Option (List Json × List Char) :=
  match fuel with
  | 0 => none
  | fuel + 1 =>
    match parseJsonValue fuel cs with
    | some (v, rest) =>
      match skipWsJ rest with
      | ',' :: r2 =>
        match parseArrRest fuel r2 with
        | some (vs, r3) => some (v :: vs, r3)
        | none => none
      | ']' :: r2 => some ([v], r2)
      | _ => none
    | none => none

/-- Reads the entries of an object after its opening brace. -/
def parseObjItems (fuel : Nat) (cs : List Char) : Option (Json × List Char) :=
  match fuel with
  | 0 => none
  | fuel + 1 =>
    match skipWsJ cs with
    | '\x7d' :: r => some (.obj [], r)
    | cs1 =>
      match parseObjRest fuel cs1 with
      | some (entries, r) => some (.obj entries, r)
      | none => none

/-- Reads one key/value entry and the comma-separated continuation. -/
def parseObjRest (fuel : Nat) (cs : List Char) :
    Option (List (String × Json) × List Char) :=
  match fuel with
  | 0 => none
  | fuel + 1 =>
    match skipWsJ cs with
    | '"' :: cs1 =>
      match parseStringBody fuel cs1 with
      | some (key, cs2) =>
        match skipWsJ cs2 with
        | ':' :: cs3 =>
          match parseJsonValue fuel cs3 with
          | some (v, rest) =>
            match skipWsJ rest with
            | ',' :: r2 =>
              match parseObjRest fuel r2 with
              | some (entries, r3) => some ((⟨key⟩, v) :: entries, r3)
              | none => none
            | '\x7d' :: r2 => some ([(⟨key⟩, v)], r2)
            | _ => none
          | none => none
        | _ => none
      | none => none
    | _ => none

end

/-- Parses a full JSON document. -/
def jsonLoads (s : String) : Except String Json :=
  match parseJsonValue (2 * s.length + 16) s.data with
  | some (j, rest) =>
    match skipWsJ rest with
    | [] => .ok j
    | _ => .error "trailing data"
  | none => .error "invalid JSON"

/-- A layout document exercising nested parameters, behaviors with both
set and unset optional fields, variables and metadata. -/
def sampleDoc : LayoutData :=
  { keyboard := "corne"
    title := some "Round trip"
    layer_names := ["base", "nav"]
    layers := [[⟨"&kp", [LayoutParam.mk (.str "LC")
        [LayoutParam.mk (.str "LS") [LayoutParam.mk (.str "A") []]]]⟩,
      ⟨"&mo", [LayoutParam.mk (.int 1) []]⟩], []]
    hold_taps := some [⟨"hm", none, ["&kp", "&mo"], some 280, none, some "balanced"⟩]
    combos := some [⟨"esc", [0, 1], ⟨"&kp", [LayoutParam.mk (.str "ESC") []]⟩,
      some 50, none, none⟩]
    macros := some [⟨"m1", [⟨"&kp", [LayoutParam.mk (.str "A") []]⟩], none, some 5⟩]
    tap_dances := some [⟨"td0", [⟨"&kp", []⟩, ⟨"&mo", []⟩], some 200⟩]
    config_parameters := some [⟨"ZMK_SLEEP", .bool true⟩]
    custom_defined_behaviors := some ""
    custom_devicetree := none
    varDefs := some [("tap", .int 200)]
    creator := some "tester"
    date := none
    uuid := none
    tags := some ["split", "42"]
    version := some "1"
    notes := none }

set_option maxRecDepth 100000 in
/-- Witness for C1: the concrete executable codec satisfies the
`loads`-inverts-`dumps` contract at `sampleDoc`'s dump, and the full
round trip restores `sampleDoc`. -/
theorem json_round_trip_witness :
    parse_layout_data jsonLoads (serialize_layout_data jsonDumps sampleDoc) =
      .ok sampleDoc :=
  json_round_trip jsonDumps jsonLoads sampleDoc (by rfl)
